import Mathlib

/-!
Verification development for the Nameless.EFB telemetry plugin.

The development shallowly embeds the two Rust crates that the checked
properties concern:

* `efb-protocol` (binary UDP packet codec): byte buffers are `List Nat`
  with each element a byte value; fixed-width machine integers and the
  bit images of IEEE floating-point fields are represented by `Fin (2 ^ 32)`
  and `Fin (2 ^ 64)` (the codec only moves the little-endian byte image of
  each field, so the bit-pattern representation is exact).
* `xplane-efb-plugin` (session state machine): the `XplmApi` capability
  interface is embedded as the in-repo `MockXplm` deterministic fake, with
  explicit state passing.  Floating-point conversions performed by the
  capability layer (for example the `f64` to `f32` narrowing cast) are not
  computed by this development; they are taken as parameters bundled in an
  `Env` record, and no theorem depends on their values.

Set-up notes: wall-clock instants are natural numbers counted in seconds
(matching the 5-second watchdog constant); fallible operations return
`Option` or `Except`.
-/

set_option maxRecDepth 10000

deriving instance DecidableEq for Except

namespace Efb

/-! ## Little-endian byte images -/

/-- The little-endian 2-byte image of a 16-bit value (`u16::to_le_bytes`). -/
def leU16 (n : Nat) : List Nat :=
  [n % 256, n / 2 ^ 8 % 256]

/-- The little-endian 4-byte image of a 32-bit value (`u32::to_le_bytes`,
also the byte image written by `f32::to_le_bytes` and `i32::to_le_bytes`). -/
def leU32 (n : Nat) : List Nat :=
  [n % 256, n / 2 ^ 8 % 256, n / 2 ^ 16 % 256, n / 2 ^ 24 % 256]

/-- The little-endian 8-byte image of a 64-bit value (`f64::to_le_bytes`). -/
def leU64 (n : Nat) : List Nat :=
  [n % 256, n / 2 ^ 8 % 256, n / 2 ^ 16 % 256, n / 2 ^ 24 % 256,
   n / 2 ^ 32 % 256, n / 2 ^ 40 % 256, n / 2 ^ 48 % 256, n / 2 ^ 56 % 256]

/-- Recompose a 16-bit value from two little-endian bytes
(`u16::from_le_bytes`). -/
def fromLe2 (b0 b1 : Nat) : Nat :=
  b0 + 2 ^ 8 * b1

/-- Recompose a 32-bit value from four little-endian bytes
(`u32::from_le_bytes`). -/
def fromLe4 (b0 b1 b2 b3 : Nat) : Nat :=
  b0 + 2 ^ 8 * b1 + 2 ^ 16 * b2 + 2 ^ 24 * b3

/-- Recompose a 64-bit value from eight little-endian bytes
(`f64::from_le_bytes`, read as a bit image). -/
def fromLe8 (b0 b1 b2 b3 b4 b5 b6 b7 : Nat) : Nat :=
  b0 + 2 ^ 8 * b1 + 2 ^ 16 * b2 + 2 ^ 24 * b3 +
  2 ^ 32 * b4 + 2 ^ 40 * b5 + 2 ^ 48 * b6 + 2 ^ 56 * b7

/-- `read_u16(buf, off)` from `efb-protocol/src/lib.rs`: little-endian read of
two bytes at `off`.  The Rust code indexes only after a length check, so the
out-of-range default `0` is never observed. -/
def readU16 (buf : List Nat) (off : Nat) : Nat :=
  fromLe2 (buf.getD off 0) (buf.getD (off + 1) 0)

/-- `read_u32(buf, off)` from `efb-protocol/src/lib.rs`. -/
def readU32 (buf : List Nat) (off : Nat) : Nat :=
  fromLe4 (buf.getD off 0) (buf.getD (off + 1) 0)
    (buf.getD (off + 2) 0) (buf.getD (off + 3) 0)

/-- A buffer is a byte string when every element is a byte value. -/
def IsBytes (buf : List Nat) : Prop :=
  ∀ b ∈ buf, b < 256

instance (buf : List Nat) : Decidable (IsBytes buf) := by
  unfold IsBytes; infer_instance

/-! ## CRC-32 (ISO-HDLC), embedded from `efb-protocol/src/lib.rs` `crc32` -/

/-- The reflected CRC-32 polynomial used by the codec. -/
def CRC_POLY : Nat := 0xEDB88320

/-- One inner-loop round of the Rust `crc32`: shift right and conditionally
fold in the reflected polynomial. -/
def crcRound (crc : Nat) : Nat :=
  if crc % 2 = 1 then (crc / 2) ^^^ CRC_POLY else crc / 2

/-- One outer-loop iteration of the Rust `crc32`: xor in the next data byte,
then run eight inner rounds. -/
def crcByteStep (crc b : Nat) : Nat :=
  crcRound^[8] (crc ^^^ b)

/-- `crc32(data)` from `efb-protocol/src/lib.rs`: seed `0xFFFFFFFF`, per-byte
update, final complement.  On a `u32` the Rust complement `!crc` is exactly
xor with `0xFFFFFFFF`. -/
def crc32 (data : List Nat) : Nat :=
  (data.foldl crcByteStep 0xFFFFFFFF) ^^^ 0xFFFFFFFF

/-! ### Reference definition, modelled from the words of the specification:
CRC-32 / ISO-HDLC as bitwise LSB-first processing with reflected polynomial
`0xEDB88320`, initial register value `0xFFFFFFFF`, and a final
one's-complement of the register. -/

/-- Reference CRC step for a single message bit, LSB-first: compare the
incoming bit with the register LSB, shift, and fold in the polynomial on
mismatch. -/
def crcRefBit (r : Nat) (bit : Bool) : Nat :=
  if (decide (r % 2 = 1)) != bit then (r / 2) ^^^ CRC_POLY else r / 2

/-- The eight bits of a byte, least significant first. -/
def byteBitsLE (b : Nat) : List Bool :=
  (List.range 8).map b.testBit

/-- Reference CRC-32 (spec wording): feed every message bit LSB-first through
`crcRefBit`, starting from `0xFFFFFFFF`, and complement the final register. -/
def crc32Ref (data : List Nat) : Nat :=
  (data.foldl (fun r b => (byteBitsLE b).foldl crcRefBit r) 0xFFFFFFFF) ^^^ 0xFFFFFFFF

theorem xor_div_two (a b : Nat) : (a ^^^ b) / 2 = a / 2 ^^^ b / 2 := by
  apply Nat.eq_of_testBit_eq
  intro i
  simp [← Nat.testBit_add_one, Nat.testBit_xor]

theorem xor_mod_two_eq_one (a b : Nat) :
    ((a ^^^ b) % 2 = 1) ↔ ¬ ((a % 2 = 1) ↔ (b % 2 = 1)) := by
  have h := Nat.testBit_xor a b 0
  simp only [Nat.testBit_zero] at h
  rcases Nat.mod_two_eq_zero_or_one a with ha | ha <;>
    rcases Nat.mod_two_eq_zero_or_one b with hb | hb <;>
      simp [ha, hb] at h ⊢ <;> omega

/-- One Rust inner round on a register with the remaining message bits xored
into it equals one reference bit step followed by re-xoring the shifted
remaining bits. -/
theorem crcRound_xor (r b : Nat) :
    crcRound (r ^^^ b) = crcRefBit r (b.testBit 0) ^^^ b / 2 := by
  unfold crcRound crcRefBit
  have hbit : b.testBit 0 = decide (b % 2 = 1) := Nat.testBit_zero b
  have hmod := xor_mod_two_eq_one r b
  rcases Nat.mod_two_eq_zero_or_one r with hr | hr <;>
    rcases Nat.mod_two_eq_zero_or_one b with hb | hb <;>
      simp [hr, hb, hbit, xor_div_two r b] at hmod ⊢ <;>
        first
          | rfl
          | (simp [hmod]; try rw [Nat.xor_assoc, Nat.xor_comm (b / 2) CRC_POLY,
              ← Nat.xor_assoc])

/-- Running `k` Rust inner rounds on `r ^^^ b` with `b < 2 ^ k` equals folding
the `k` low bits of `b`, LSB-first, through the reference bit step. -/
theorem iterate_crcRound_eq_foldBits :
    ∀ (k : Nat) (r b : Nat), b < 2 ^ k →
      crcRound^[k] (r ^^^ b) =
        ((List.range k).map b.testBit).foldl crcRefBit r := by
  intro k
  induction k with
  | zero =>
      intro r b hb
      interval_cases b
      simp
  | succ k ih =>
      intro r b hb
      rw [List.range_succ_eq_map, List.map_cons, List.foldl_cons,
        Function.iterate_succ_apply, crcRound_xor]
      have hdiv : b / 2 < 2 ^ k := by
        have : 2 ^ (k + 1) = 2 ^ k * 2 := by ring
        omega
      have hrec := ih (crcRefBit r (b.testBit 0)) (b / 2) hdiv
      have hfun : (b.testBit ∘ Nat.succ) = (b / 2).testBit := by
        funext i
        simp [Function.comp, Nat.testBit_add_one]
      rw [hrec, List.map_map, hfun]

/-- Per-byte agreement between the Rust update loop and the reference
bit-fold, for byte values. -/
theorem crcByteStep_eq_ref (r b : Nat) (hb : b < 256) :
    crcByteStep r b = (byteBitsLE b).foldl crcRefBit r := by
  unfold crcByteStep byteBitsLE
  exact iterate_crcRound_eq_foldBits 8 r b hb

theorem foldl_crcByteStep_eq_ref (l : List Nat) :
    ∀ s, IsBytes l →
      l.foldl crcByteStep s =
        l.foldl (fun r b => (byteBitsLE b).foldl crcRefBit r) s := by
  induction l with
  | nil => intro s _; rfl
  | cons b rest ih =>
      intro s hl
      simp only [List.foldl_cons]
      rw [crcByteStep_eq_ref _ _ (hl b (List.mem_cons_self b rest))]
      exact ih _ (fun x hx => hl x (List.mem_cons_of_mem b hx))

/-- The codec checksum agrees with the reference CRC-32 on every byte
string. -/
theorem crc32_eq_ref (data : List Nat) (h : IsBytes data) :
    crc32 data = crc32Ref data := by
  unfold crc32 crc32Ref
  rw [foldl_crcByteStep_eq_ref data _ h]

/-- The CRC register stays below `2 ^ 32` along the Rust loop, so the final
complement is a 32-bit value. -/
theorem crcRound_lt (c : Nat) (h : c < 2 ^ 32) : crcRound c < 2 ^ 32 := by
  unfold crcRound
  split
  · exact Nat.xor_lt_two_pow (by omega) (by norm_num [CRC_POLY])
  · omega

theorem crcByteStep_lt (c b : Nat) (hc : c < 2 ^ 32) (hb : b < 256) :
    crcByteStep c b < 2 ^ 32 := by
  unfold crcByteStep
  have start : c ^^^ b < 2 ^ 32 := Nat.xor_lt_two_pow hc (by omega)
  have : ∀ k x, x < 2 ^ 32 → crcRound^[k] x < 2 ^ 32 := by
    intro k
    induction k with
    | zero => intro x hx; simpa using hx
    | succ k ih =>
        intro x hx
        rw [Function.iterate_succ_apply]
        exact ih _ (crcRound_lt _ hx)
  exact this 8 _ start

/-- `crc32` of a byte string is a 32-bit value. -/
theorem crc32_lt (data : List Nat) (h : IsBytes data) : crc32 data < 2 ^ 32 := by
  unfold crc32
  have : data.foldl crcByteStep 0xFFFFFFFF < 2 ^ 32 := by
    have gen : ∀ (l : List Nat) (s : Nat), IsBytes l → s < 2 ^ 32 →
        l.foldl crcByteStep s < 2 ^ 32 := by
      intro l
      induction l with
      | nil => intro s _ hs; simpa using hs
      | cons b rest ih =>
          intro s hl hs
          simp only [List.foldl_cons]
          exact ih _ (fun x hx => hl x (List.mem_cons_of_mem b hx))
            (crcByteStep_lt _ _ hs (hl b (List.mem_cons_self b rest)))
    exact gen data _ h (by norm_num)
  exact Nat.xor_lt_two_pow this (by norm_num)

/-! ## Protocol data model (`efb-protocol/src/lib.rs`) -/

/-- The bit image of a 32-bit machine value (`u32`, `i32`, or an `f32` byte
image). -/
abbrev U32 := Fin (2 ^ 32)

/-- The bit image of a 64-bit machine value (an `f64` byte image). -/
abbrev U64 := Fin (2 ^ 64)

def MAGIC : Nat := 0xEFB12345

def PROTOCOL_VERSION : Nat := 1

/-- Size of the fixed packet header in bytes. -/
def HEADER_LEN : Nat := 17

/-- Maximum accepted payload length (64 KiB minus 1). -/
def MAX_PAYLOAD_LEN : Nat := 65535

inductive PacketType where
  | SimData
  | CommandJson
  | Ack
  | Reload
deriving DecidableEq, Repr

/-- The `u8` discriminant of each packet type (`#[repr(u8)]`). -/
def PacketType.toU8 : PacketType → Nat
  | .SimData => 0x01
  | .CommandJson => 0x02
  | .Ack => 0x03
  | .Reload => 0x04

/-- `PacketType::from_u8`. -/
def PacketType.fromU8 : Nat → Option PacketType
  | 0x01 => some .SimData
  | 0x02 => some .CommandJson
  | 0x03 => some .Ack
  | 0x04 => some .Reload
  | _ => none

inductive ProtocolError where
  | TooShort
  | BadMagic
  | BadVersion
  | UnknownPacketType (t : Nat)
  | PayloadTooLarge
  | TruncatedPayload
  | BadChecksum
deriving DecidableEq, Repr

/-- Fixed-size packet header present at the start of every datagram.  Fields
hold the decoded little-endian values. -/
structure PacketHeader where
  magic : Nat
  version : Nat
  packet_type : Nat
  payload_len : Nat
  sequence : Nat
  checksum : Nat
deriving DecidableEq, Repr

/-- `SimSnapshot` from `dataref-schema/src/lib.rs`, with every field carried
as its machine bit image (`f64` as `U64`, `f32` and `i32` as `U32`, `u8` as
`Fin 256`, `bool` as `Bool`) and fixed-size arrays as vectors. -/
structure SimSnapshot where
  latitude : U64
  longitude : U64
  elevation_m : U64
  groundspeed_ms : U32
  pitch_deg : U32
  roll_deg : U32
  mag_heading_deg : U32
  ground_track_deg : U32
  ias_kts : U32
  tas_kts : U32
  vvi_fpm : U32
  turn_rate_deg_sec : U32
  slip_deg : U32
  oat_degc : U32
  barometer_inhg : U32
  rpm : U32
  map_inhg : U32
  fuel_flow_kg_sec : U32
  oil_press_psi : U32
  oil_temp_degc : U32
  egt_degc : Mathlib.Vector U32 6
  fuel_qty_kg : Mathlib.Vector U32 2
  bus_volts : U32
  battery_amps : U32
  suction_inhg : U32
  nav1_hdef_dot : U32
  nav1_vdef_dot : U32
  nav1_obs_deg : U32
  gps_dist_nm : U32
  gps_bearing_deg : U32
  ap_state_flags : U32
  fd_pitch_deg : U32
  fd_roll_deg : U32
  ap_heading_bug_deg : U32
  ap_altitude_ft : U32
  ap_vs_fpm : U32
  com1_active_hz : U32
  com1_standby_hz : U32
  com2_active_hz : U32
  nav1_active_hz : U32
  nav1_standby_hz : U32
  transponder_code : U32
  transponder_mode : U32
  outer_marker : Bool
  middle_marker : Bool
  inner_marker : Bool
  wind_dir_deg : U32
  wind_speed_kt : U32
  traffic_lat : Mathlib.Vector U32 20
  traffic_lon : Mathlib.Vector U32 20
  traffic_ele_m : Mathlib.Vector U32 20
  traffic_count : Fin 256
  hsi_source : U32
deriving DecidableEq

/-! ## Field encoders and sequential readers -/

/-- Little-endian byte image of a 32-bit field (`to_le_bytes`). -/
def enc32 (x : U32) : List Nat := leU32 x.val

/-- Little-endian byte image of a 64-bit field (`to_le_bytes`). -/
def enc64 (x : U64) : List Nat := leU64 x.val

/-- Byte image of a fixed-size `f32` array: each element in order
(the `for x in arr` loops of `serialize_snapshot`). -/
def encVec {n : Nat} (v : Mathlib.Vector U32 n) : List Nat :=
  v.toList.flatMap enc32

/-- `bool as u8`. -/
def boolByte (b : Bool) : Nat := if b then 1 else 0

/-- The `rd_f32!` / `rd_i32!` macro of `deserialize_snapshot`: consume four
bytes, little-endian.  The `% 2 ^ 32` only encodes that `from_le_bytes`
yields a 32-bit value; on byte-valued input it changes nothing. -/
def rdU32bits : List Nat → Option (U32 × List Nat)
  | b0 :: b1 :: b2 :: b3 :: rest =>
      some (⟨fromLe4 b0 b1 b2 b3 % 2 ^ 32, Nat.mod_lt _ (by norm_num)⟩, rest)
  | _ => none

/-- The `rd_f64!` macro: consume eight bytes, little-endian. -/
def rdU64bits : List Nat → Option (U64 × List Nat)
  | b0 :: b1 :: b2 :: b3 :: b4 :: b5 :: b6 :: b7 :: rest =>
      some (⟨fromLe8 b0 b1 b2 b3 b4 b5 b6 b7 % 2 ^ 64, Nat.mod_lt _ (by norm_num)⟩, rest)
  | _ => none

/-- The `rd_u8!` macro: consume one byte. -/
def rdU8 : List Nat → Option (Nat × List Nat)
  | b :: rest => some (b, rest)
  | _ => none

/-- Read `n` consecutive `f32` bit images (the array-filling loops of
`deserialize_snapshot`). -/
def rdVec : (n : Nat) → List Nat → Option (Mathlib.Vector U32 n × List Nat)
  | 0, buf => some (Mathlib.Vector.nil, buf)
  | n + 1, buf =>
      match rdU32bits buf with
      | none => none
      | some (x, buf) =>
          match rdVec n buf with
          | none => none
          | some (v, buf) => some (Mathlib.Vector.cons x v, buf)

@[simp] theorem rdU32bits_enc32 (x : U32) (r : List Nat) :
    rdU32bits (enc32 x ++ r) = some (x, r) := by
  have hx := x.isLt
  simp only [enc32, leU32, List.cons_append, List.nil_append, rdU32bits]
  refine congrArg some (Prod.ext ?_ rfl)
  apply Fin.ext
  simp only [fromLe4]
  omega

@[simp] theorem rdU32bits_enc32_nil (x : U32) :
    rdU32bits (enc32 x) = some (x, []) := by
  have h := rdU32bits_enc32 x []
  rwa [List.append_nil] at h

@[simp] theorem rdU64bits_enc64 (x : U64) (r : List Nat) :
    rdU64bits (enc64 x ++ r) = some (x, r) := by
  have hx := x.isLt
  simp only [enc64, leU64, List.cons_append, List.nil_append, rdU64bits]
  refine congrArg some (Prod.ext ?_ rfl)
  apply Fin.ext
  simp only [fromLe8]
  omega

@[simp] theorem rdU8_cons (b : Nat) (r : List Nat) :
    rdU8 (b :: r) = some (b, r) := rfl

@[simp] theorem rdVec_encVec {n : Nat} (v : Mathlib.Vector U32 n) (r : List Nat) :
    rdVec n (encVec v ++ r) = some (v, r) := by
  induction v using Mathlib.Vector.inductionOn generalizing r with
  | nil => simp [encVec, rdVec]
  | cons ih =>
      rename_i n x w
      simp only [encVec, Mathlib.Vector.toList_cons, List.flatMap_cons,
        List.append_assoc, rdVec, rdU32bits_enc32]
      rw [show w.toList.flatMap enc32 = encVec w from rfl, ih]

@[simp] theorem boolByte_bne (b : Bool) : (boolByte b != 0) = b := by
  cases b <;> rfl

@[simp] theorem fin256_mk_mod (x : Fin 256) (h : x.val % 256 < 256) :
    (⟨x.val % 256, h⟩ : Fin 256) = x := by
  apply Fin.ext
  simp [Nat.mod_eq_of_lt x.isLt]

/-! ## Snapshot (de)serialization (`serialize_snapshot` / `deserialize_snapshot`) -/

/-- `serialize_snapshot`: every field in declaration order, little-endian. -/
def serialize_snapshot (s : SimSnapshot) : List Nat :=
  enc64 s.latitude ++ enc64 s.longitude ++ enc64 s.elevation_m ++
  enc32 s.groundspeed_ms ++
  enc32 s.pitch_deg ++ enc32 s.roll_deg ++ enc32 s.mag_heading_deg ++
  enc32 s.ground_track_deg ++
  enc32 s.ias_kts ++ enc32 s.tas_kts ++ enc32 s.vvi_fpm ++
  enc32 s.turn_rate_deg_sec ++ enc32 s.slip_deg ++ enc32 s.oat_degc ++
  enc32 s.barometer_inhg ++
  enc32 s.rpm ++ enc32 s.map_inhg ++ enc32 s.fuel_flow_kg_sec ++
  enc32 s.oil_press_psi ++ enc32 s.oil_temp_degc ++
  encVec s.egt_degc ++ encVec s.fuel_qty_kg ++
  enc32 s.bus_volts ++ enc32 s.battery_amps ++ enc32 s.suction_inhg ++
  enc32 s.nav1_hdef_dot ++ enc32 s.nav1_vdef_dot ++ enc32 s.nav1_obs_deg ++
  enc32 s.gps_dist_nm ++ enc32 s.gps_bearing_deg ++
  enc32 s.ap_state_flags ++ enc32 s.fd_pitch_deg ++ enc32 s.fd_roll_deg ++
  enc32 s.ap_heading_bug_deg ++ enc32 s.ap_altitude_ft ++ enc32 s.ap_vs_fpm ++
  enc32 s.com1_active_hz ++ enc32 s.com1_standby_hz ++ enc32 s.com2_active_hz ++
  enc32 s.nav1_active_hz ++ enc32 s.nav1_standby_hz ++
  enc32 s.transponder_code ++ enc32 s.transponder_mode ++
  [boolByte s.outer_marker] ++ [boolByte s.middle_marker] ++
  [boolByte s.inner_marker] ++
  enc32 s.wind_dir_deg ++ enc32 s.wind_speed_kt ++
  encVec s.traffic_lat ++ encVec s.traffic_lon ++ encVec s.traffic_ele_m ++
  [s.traffic_count.val] ++
  enc32 s.hsi_source

/-- `deserialize_snapshot`: sequential reads in the same field order; any
truncation makes a read fail and propagates `none`.  Trailing bytes after the
last field are ignored, as in the Rust function. -/
def deserialize_snapshot (buf0 : List Nat) : Option SimSnapshot :=
  match rdU64bits buf0 with
  | none => none
  | some (latitude, buf1) =>
  match rdU64bits buf1 with
  | none => none
  | some (longitude, buf2) =>
  match rdU64bits buf2 with
  | none => none
  | some (elevation_m, buf3) =>
  match rdU32bits buf3 with
  | none => none
  | some (groundspeed_ms, buf4) =>
  match rdU32bits buf4 with
  | none => none
  | some (pitch_deg, buf5) =>
  match rdU32bits buf5 with
  | none => none
  | some (roll_deg, buf6) =>
  match rdU32bits buf6 with
  | none => none
  | some (mag_heading_deg, buf7) =>
  match rdU32bits buf7 with
  | none => none
  | some (ground_track_deg, buf8) =>
  match rdU32bits buf8 with
  | none => none
  | some (ias_kts, buf9) =>
  match rdU32bits buf9 with
  | none => none
  | some (tas_kts, buf10) =>
  match rdU32bits buf10 with
  | none => none
  | some (vvi_fpm, buf11) =>
  match rdU32bits buf11 with
  | none => none
  | some (turn_rate_deg_sec, buf12) =>
  match rdU32bits buf12 with
  | none => none
  | some (slip_deg, buf13) =>
  match rdU32bits buf13 with
  | none => none
  | some (oat_degc, buf14) =>
  match rdU32bits buf14 with
  | none => none
  | some (barometer_inhg, buf15) =>
  match rdU32bits buf15 with
  | none => none
  | some (rpm, buf16) =>
  match rdU32bits buf16 with
  | none => none
  | some (map_inhg, buf17) =>
  match rdU32bits buf17 with
  | none => none
  | some (fuel_flow_kg_sec, buf18) =>
  match rdU32bits buf18 with
  | none => none
  | some (oil_press_psi, buf19) =>
  match rdU32bits buf19 with
  | none => none
  | some (oil_temp_degc, buf20) =>
  match rdVec 6 buf20 with
  | none => none
  | some (egt_degc, buf21) =>
  match rdVec 2 buf21 with
  | none => none
  | some (fuel_qty_kg, buf22) =>
  match rdU32bits buf22 with
  | none => none
  | some (bus_volts, buf23) =>
  match rdU32bits buf23 with
  | none => none
  | some (battery_amps, buf24) =>
  match rdU32bits buf24 with
  | none => none
  | some (suction_inhg, buf25) =>
  match rdU32bits buf25 with
  | none => none
  | some (nav1_hdef_dot, buf26) =>
  match rdU32bits buf26 with
  | none => none
  | some (nav1_vdef_dot, buf27) =>
  match rdU32bits buf27 with
  | none => none
  | some (nav1_obs_deg, buf28) =>
  match rdU32bits buf28 with
  | none => none
  | some (gps_dist_nm, buf29) =>
  match rdU32bits buf29 with
  | none => none
  | some (gps_bearing_deg, buf30) =>
  match rdU32bits buf30 with
  | none => none
  | some (ap_state_flags, buf31) =>
  match rdU32bits buf31 with
  | none => none
  | some (fd_pitch_deg, buf32) =>
  match rdU32bits buf32 with
  | none => none
  | some (fd_roll_deg, buf33) =>
  match rdU32bits buf33 with
  | none => none
  | some (ap_heading_bug_deg, buf34) =>
  match rdU32bits buf34 with
  | none => none
  | some (ap_altitude_ft, buf35) =>
  match rdU32bits buf35 with
  | none => none
  | some (ap_vs_fpm, buf36) =>
  match rdU32bits buf36 with
  | none => none
  | some (com1_active_hz, buf37) =>
  match rdU32bits buf37 with
  | none => none
  | some (com1_standby_hz, buf38) =>
  match rdU32bits buf38 with
  | none => none
  | some (com2_active_hz, buf39) =>
  match rdU32bits buf39 with
  | none => none
  | some (nav1_active_hz, buf40) =>
  match rdU32bits buf40 with
  | none => none
  | some (nav1_standby_hz, buf41) =>
  match rdU32bits buf41 with
  | none => none
  | some (transponder_code, buf42) =>
  match rdU32bits buf42 with
  | none => none
  | some (transponder_mode, buf43) =>
  match rdU8 buf43 with
  | none => none
  | some (outerB, buf44) =>
  match rdU8 buf44 with
  | none => none
  | some (middleB, buf45) =>
  match rdU8 buf45 with
  | none => none
  | some (innerB, buf46) =>
  match rdU32bits buf46 with
  | none => none
  | some (wind_dir_deg, buf47) =>
  match rdU32bits buf47 with
  | none => none
  | some (wind_speed_kt, buf48) =>
  match rdVec 20 buf48 with
  | none => none
  | some (traffic_lat, buf49) =>
  match rdVec 20 buf49 with
  | none => none
  | some (traffic_lon, buf50) =>
  match rdVec 20 buf50 with
  | none => none
  | some (traffic_ele_m, buf51) =>
  match rdU8 buf51 with
  | none => none
  | some (countB, buf52) =>
  match rdU32bits buf52 with
  | none => none
  | some (hsi_source, buf53) =>
  some {
    latitude, longitude, elevation_m, groundspeed_ms,
    pitch_deg, roll_deg, mag_heading_deg, ground_track_deg,
    ias_kts, tas_kts, vvi_fpm, turn_rate_deg_sec, slip_deg, oat_degc,
    barometer_inhg, rpm, map_inhg, fuel_flow_kg_sec, oil_press_psi,
    oil_temp_degc, egt_degc, fuel_qty_kg, bus_volts, battery_amps,
    suction_inhg, nav1_hdef_dot, nav1_vdef_dot, nav1_obs_deg, gps_dist_nm,
    gps_bearing_deg, ap_state_flags, fd_pitch_deg, fd_roll_deg,
    ap_heading_bug_deg, ap_altitude_ft, ap_vs_fpm, com1_active_hz,
    com1_standby_hz, com2_active_hz, nav1_active_hz, nav1_standby_hz,
    transponder_code, transponder_mode,
    outer_marker := outerB != 0,
    middle_marker := middleB != 0,
    inner_marker := innerB != 0,
    wind_dir_deg, wind_speed_kt, traffic_lat, traffic_lon, traffic_ele_m,
    traffic_count := ⟨countB % 256, Nat.mod_lt _ (by norm_num)⟩,
    hsi_source }

/-- Serialization round trip: deserializing a serialized snapshot restores
every field bit-exactly. -/
theorem deserialize_serialize (s : SimSnapshot) :
    deserialize_snapshot (serialize_snapshot s) = some s := by
  simp only [serialize_snapshot, deserialize_snapshot, List.append_assoc,
    List.singleton_append, List.cons_append, List.nil_append,
    rdU64bits_enc64, rdU32bits_enc32, rdU32bits_enc32_nil, rdVec_encVec,
    rdU8_cons, boolByte_bne, fin256_mk_mod]

/-! ## Packet framing (`build_packet`, `encode_sim_data`, `decode_packet`) -/

/-- `build_packet`: header fields in fixed little-endian order followed by the
payload.  `payload.len() as u16` is the length reduced mod `2 ^ 16`. -/
def build_packet (seq : U32) (ptype : PacketType) (payload : List Nat) : List Nat :=
  leU32 MAGIC ++ leU16 PROTOCOL_VERSION ++ [ptype.toU8] ++
  leU16 (payload.length % 2 ^ 16) ++ leU32 seq.val ++ leU32 (crc32 payload) ++
  payload

/-- `encode_sim_data`: serialize the snapshot and frame it as SimData. -/
def encode_sim_data (seq : U32) (snapshot : SimSnapshot) : List Nat :=
  build_packet seq .SimData (serialize_snapshot snapshot)

/-- `decode_packet`: the validation ladder of the codec. -/
def decode_packet (buf : List Nat) :
    Except ProtocolError (PacketHeader × PacketType × List Nat) :=
  if buf.length < HEADER_LEN then .error .TooShort
  else if readU32 buf 0 ≠ MAGIC then .error .BadMagic
  else if readU16 buf 4 ≠ PROTOCOL_VERSION then .error .BadVersion
  else
    match PacketType.fromU8 (buf.getD 6 0) with
    | none => .error (.UnknownPacketType (buf.getD 6 0))
    | some packet_type =>
        if readU16 buf 7 > MAX_PAYLOAD_LEN then .error .PayloadTooLarge
        else if buf.length < HEADER_LEN + readU16 buf 7 then .error .TruncatedPayload
        else if crc32 ((buf.drop HEADER_LEN).take (readU16 buf 7)) ≠ readU32 buf 13 then
          .error .BadChecksum
        else
          .ok ({ magic := readU32 buf 0, version := readU16 buf 4,
                 packet_type := buf.getD 6 0, payload_len := readU16 buf 7,
                 sequence := readU32 buf 9, checksum := readU32 buf 13 },
               packet_type, (buf.drop HEADER_LEN).take (readU16 buf 7))

/-- `decode_sim_data`: deserialize a SimData payload; truncation reports
`TruncatedPayload`. -/
def decode_sim_data (payload : List Nat) : Except ProtocolError SimSnapshot :=
  match deserialize_snapshot payload with
  | some s => .ok s
  | none => .error .TruncatedPayload

/-- Packet-type classification as the specification words it: the closed set
of packet-type bytes is `{1, 2, 3, 4}`. -/
def specPacketType (b : Nat) : Option PacketType :=
  if b = 1 then some .SimData
  else if b = 2 then some .CommandJson
  else if b = 3 then some .Ack
  else if b = 4 then some .Reload
  else none

theorem specPacketType_eq_fromU8 (b : Nat) :
    specPacketType b = PacketType.fromU8 b := by
  unfold specPacketType PacketType.fromU8
  rcases b with _ | _ | _ | _ | _ | b <;> rfl

/-- The validation ladder exactly as the claim states it: `TooShort`,
`BadMagic`, `BadVersion`, `UnknownPacketType`, `TruncatedPayload`,
`BadChecksum`, in that order, with no other failure; on success the payload
view is exactly `payload_len` bytes starting at offset 17. -/
def decode_spec (buf : List Nat) :
    Except ProtocolError (PacketHeader × PacketType × List Nat) :=
  if buf.length < 17 then .error .TooShort
  else if readU32 buf 0 ≠ 0xEFB12345 then .error .BadMagic
  else if readU16 buf 4 ≠ 1 then .error .BadVersion
  else
    match specPacketType (buf.getD 6 0) with
    | none => .error (.UnknownPacketType (buf.getD 6 0))
    | some packet_type =>
        if buf.length < 17 + readU16 buf 7 then .error .TruncatedPayload
        else if crc32 ((buf.drop 17).take (readU16 buf 7)) ≠ readU32 buf 13 then
          .error .BadChecksum
        else
          .ok ({ magic := readU32 buf 0, version := readU16 buf 4,
                 packet_type := buf.getD 6 0, payload_len := readU16 buf 7,
                 sequence := readU32 buf 9, checksum := readU32 buf 13 },
               packet_type, (buf.drop 17).take (readU16 buf 7))

/-- Elements of a byte string read below 256 even through the defaulting
accessor. -/
theorem getD_lt_of_isBytes (buf : List Nat) (i : Nat) (h : IsBytes buf) :
    buf.getD i 0 < 256 := by
  induction buf generalizing i with
  | nil => simp [List.getD]
  | cons b rest ih =>
      cases i with
      | zero => simpa using h b (List.mem_cons_self b rest)
      | succ i =>
          simp only [List.getD_cons_succ]
          exact ih i (fun x hx => h x (List.mem_cons_of_mem b hx))

/-- On byte strings the declared payload length, read from a 16-bit field,
never exceeds `MAX_PAYLOAD_LEN`. -/
theorem readU16_le_max (buf : List Nat) (h : IsBytes buf) (off : Nat) :
    ¬ readU16 buf off > MAX_PAYLOAD_LEN := by
  have h1 := getD_lt_of_isBytes buf off h
  have h2 := getD_lt_of_isBytes buf (off + 1) h
  simp only [readU16, fromLe2, MAX_PAYLOAD_LEN]
  omega

/-! ## Byte bounds and length of the serialized snapshot -/

theorem isBytes_append {a b : List Nat} (ha : IsBytes a) (hb : IsBytes b) :
    IsBytes (a ++ b) := by
  intro x hx
  rcases List.mem_append.mp hx with h | h
  · exact ha x h
  · exact hb x h

theorem isBytes_leU32 (n : Nat) : IsBytes (leU32 n) := by
  intro b hb
  simp only [leU32, List.mem_cons, List.not_mem_nil, or_false] at hb
  rcases hb with h | h | h | h <;> omega

theorem isBytes_leU64 (n : Nat) : IsBytes (leU64 n) := by
  intro b hb
  simp only [leU64, List.mem_cons, List.not_mem_nil, or_false] at hb
  rcases hb with h | h | h | h | h | h | h | h <;> omega

theorem isBytes_leU16 (n : Nat) : IsBytes (leU16 n) := by
  intro b hb
  simp only [leU16, List.mem_cons, List.not_mem_nil, or_false] at hb
  rcases hb with h | h <;> omega

theorem isBytes_enc32 (x : U32) : IsBytes (enc32 x) := isBytes_leU32 x.val

theorem isBytes_enc64 (x : U64) : IsBytes (enc64 x) := isBytes_leU64 x.val

theorem isBytes_encVec {n : Nat} (v : Mathlib.Vector U32 n) :
    IsBytes (encVec v) := by
  intro b hb
  rcases List.mem_flatMap.mp hb with ⟨x, _, hbx⟩
  exact isBytes_enc32 x b hbx

theorem isBytes_boolByte (b : Bool) : IsBytes [boolByte b] := by
  intro x hx
  simp only [List.mem_singleton] at hx
  cases b <;> simp [hx, boolByte]

theorem isBytes_finByte (x : Fin 256) : IsBytes [x.val] := by
  intro b hb
  simp only [List.mem_singleton] at hb
  omega

/-- Every serialized snapshot is a byte string. -/
theorem isBytes_serialize (s : SimSnapshot) : IsBytes (serialize_snapshot s) := by
  unfold serialize_snapshot
  repeat' apply isBytes_append
  all_goals first
    | exact isBytes_enc32 _
    | exact isBytes_enc64 _
    | exact isBytes_encVec _
    | exact isBytes_boolByte _
    | exact isBytes_finByte _

theorem flatMap_enc32_length (l : List U32) :
    (l.flatMap enc32).length = 4 * l.length := by
  induction l with
  | nil => rfl
  | cons a t ih =>
      simp only [List.flatMap_cons, List.length_append, ih, enc32, leU32,
        List.length_cons, List.length_nil]
      omega

theorem encVec_length {n : Nat} (v : Mathlib.Vector U32 n) :
    (encVec v).length = 4 * n := by
  unfold encVec
  rw [flatMap_enc32_length, Mathlib.Vector.toList_length]

/-- The serialized snapshot is exactly 464 bytes. -/
theorem serialize_snapshot_length (s : SimSnapshot) :
    (serialize_snapshot s).length = 464 := by
  simp [serialize_snapshot, enc32, enc64, leU32, leU64, encVec_length,
    List.length_append]

/-! ## Decoding an encoded frame -/

/-- A built packet as an explicit 17-byte header followed by the payload. -/
theorem build_packet_cons (seq : U32) (ptype : PacketType) (payload : List Nat) :
    build_packet seq ptype payload =
      0x45 :: 0x23 :: 0xB1 :: 0xEF :: 1 :: 0 :: ptype.toU8 ::
      (payload.length % 2 ^ 16 % 256) :: (payload.length % 2 ^ 16 / 2 ^ 8 % 256) ::
      (seq.val % 256) :: (seq.val / 2 ^ 8 % 256) :: (seq.val / 2 ^ 16 % 256) ::
      (seq.val / 2 ^ 24 % 256) ::
      (crc32 payload % 256) :: (crc32 payload / 2 ^ 8 % 256) ::
      (crc32 payload / 2 ^ 16 % 256) :: (crc32 payload / 2 ^ 24 % 256) ::
      payload := by
  simp only [build_packet, leU32, leU16, List.cons_append, List.nil_append,
    List.singleton_append, List.append_assoc]
  norm_num [MAGIC, PROTOCOL_VERSION]

theorem frame_readU32_0 (a0 a1 a2 a3 a4 a5 a6 a7 a8 a9 a10 a11 a12 a13 a14
    a15 a16 : Nat) (p : List Nat) :
    readU32 (a0 :: a1 :: a2 :: a3 :: a4 :: a5 :: a6 :: a7 :: a8 :: a9 :: a10 ::
      a11 :: a12 :: a13 :: a14 :: a15 :: a16 :: p) 0 = fromLe4 a0 a1 a2 a3 := rfl

theorem frame_readU16_4 (a0 a1 a2 a3 a4 a5 a6 a7 a8 a9 a10 a11 a12 a13 a14
    a15 a16 : Nat) (p : List Nat) :
    readU16 (a0 :: a1 :: a2 :: a3 :: a4 :: a5 :: a6 :: a7 :: a8 :: a9 :: a10 ::
      a11 :: a12 :: a13 :: a14 :: a15 :: a16 :: p) 4 = fromLe2 a4 a5 := rfl

theorem frame_getD_6 (a0 a1 a2 a3 a4 a5 a6 a7 a8 a9 a10 a11 a12 a13 a14
    a15 a16 : Nat) (p : List Nat) :
    (a0 :: a1 :: a2 :: a3 :: a4 :: a5 :: a6 :: a7 :: a8 :: a9 :: a10 ::
      a11 :: a12 :: a13 :: a14 :: a15 :: a16 :: p).getD 6 0 = a6 := rfl

theorem frame_readU16_7 (a0 a1 a2 a3 a4 a5 a6 a7 a8 a9 a10 a11 a12 a13 a14
    a15 a16 : Nat) (p : List Nat) :
    readU16 (a0 :: a1 :: a2 :: a3 :: a4 :: a5 :: a6 :: a7 :: a8 :: a9 :: a10 ::
      a11 :: a12 :: a13 :: a14 :: a15 :: a16 :: p) 7 = fromLe2 a7 a8 := rfl

theorem frame_readU32_9 (a0 a1 a2 a3 a4 a5 a6 a7 a8 a9 a10 a11 a12 a13 a14
    a15 a16 : Nat) (p : List Nat) :
    readU32 (a0 :: a1 :: a2 :: a3 :: a4 :: a5 :: a6 :: a7 :: a8 :: a9 :: a10 ::
      a11 :: a12 :: a13 :: a14 :: a15 :: a16 :: p) 9 = fromLe4 a9 a10 a11 a12 := rfl

theorem frame_readU32_13 (a0 a1 a2 a3 a4 a5 a6 a7 a8 a9 a10 a11 a12 a13 a14
    a15 a16 : Nat) (p : List Nat) :
    readU32 (a0 :: a1 :: a2 :: a3 :: a4 :: a5 :: a6 :: a7 :: a8 :: a9 :: a10 ::
      a11 :: a12 :: a13 :: a14 :: a15 :: a16 :: p) 13 = fromLe4 a13 a14 a15 a16 := rfl

theorem frame_drop_17 (a0 a1 a2 a3 a4 a5 a6 a7 a8 a9 a10 a11 a12 a13 a14
    a15 a16 : Nat) (p : List Nat) :
    (a0 :: a1 :: a2 :: a3 :: a4 :: a5 :: a6 :: a7 :: a8 :: a9 :: a10 ::
      a11 :: a12 :: a13 :: a14 :: a15 :: a16 :: p).drop 17 = p := rfl

theorem frame_length (a0 a1 a2 a3 a4 a5 a6 a7 a8 a9 a10 a11 a12 a13 a14
    a15 a16 : Nat) (p : List Nat) :
    (a0 :: a1 :: a2 :: a3 :: a4 :: a5 :: a6 :: a7 :: a8 :: a9 :: a10 ::
      a11 :: a12 :: a13 :: a14 :: a15 :: a16 :: p).length = 17 + p.length := by
  simp [List.length_cons]
  omega

/-- Recomposing the four little-endian digits of a 32-bit value restores
it. -/
theorem fromLe4_digits (v : Nat) (h : v < 2 ^ 32) :
    fromLe4 (v % 256) (v / 2 ^ 8 % 256) (v / 2 ^ 16 % 256) (v / 2 ^ 24 % 256)
      = v := by
  simp only [fromLe4]
  omega

/-- Decoding an encoded SimData frame succeeds, exposing the validated
header (sequence preserved) and a payload view that is exactly the
serialized snapshot. -/
theorem decode_encode_sim_data (seq : U32) (s : SimSnapshot) :
    decode_packet (encode_sim_data seq s) =
      .ok ({ magic := MAGIC, version := PROTOCOL_VERSION, packet_type := 1,
             payload_len := 464, sequence := seq.val,
             checksum := crc32 (serialize_snapshot s) },
           .SimData, serialize_snapshot s) := by
  have hL := serialize_snapshot_length s
  have hcrc : crc32 (serialize_snapshot s) < 2 ^ 32 :=
    crc32_lt _ (isBytes_serialize s)
  have hseq := seq.isLt
  rw [encode_sim_data, build_packet_cons]
  unfold decode_packet
  simp only [HEADER_LEN, MAX_PAYLOAD_LEN]
  rw [frame_length, frame_readU32_0, frame_readU16_4, frame_getD_6,
    frame_readU16_7, frame_readU32_9, frame_readU32_13, frame_drop_17, hL]
  rw [fromLe4_digits seq.val hseq, fromLe4_digits _ hcrc]
  norm_num [MAGIC, PROTOCOL_VERSION, fromLe4, fromLe2,
    PacketType.toU8, PacketType.fromU8]
  rw [← hL, List.take_length]
  simp

/-! ## Plugin layer (`xplane-efb-plugin/src/plugin.rs` and `xplm_shim.rs`)

The `XplmApi` trait is embedded as the deterministic in-repo `MockXplm`
implementation with explicit state passing.  Socket sends are returned as an
output list; wall-clock instants are passed in as a `now` parameter. -/

/-- A peer socket address, kept opaque. -/
abbrev Addr := String

def STREAM_PORT : Nat := 49100

def DEFAULT_HZ : Nat := 20

def MAX_HZ : Nat := 60

/-- Watchdog timeout, in seconds. -/
def WATCHDOG_TIMEOUT : Nat := 5

/-- `DataRefValue` from `xplm_shim.rs`, with numeric payloads as bit
images. -/
inductive DataRefValue where
  | Float (v : U32)
  | Double (v : U64)
  | Int (v : U32)
  | FloatArray (a : List U32)
deriving DecidableEq

/-- The tagged JSON command format (`Command` in `plugin.rs`); the `f64`
value is carried as its bit image. -/
inductive Command where
  | SetDataref (path : String) (value : U64)
  | SwapFreq (radio : String)
deriving DecidableEq

/-- `InternalMsg`: messages forwarded from the command-server thread to the
flight loop. -/
inductive InternalMsg where
  | Ack (addr : Addr)
  | Command (payload : List Nat)
  | Reload
deriving DecidableEq

/-- Floating-point conversions and external parsing, abstracted: these model
host operations (IEEE casts, `serde_json` parsing) whose numeric behaviour is
outside this development.  No theorem depends on the values of these
functions. -/
structure Env where
  /-- `f64 as f32` narrowing cast, on bit images. -/
  doubleToFloat : U64 → U32
  /-- `i32 as f32` cast. -/
  intToFloat : U32 → U32
  /-- `f32 as f64` widening cast. -/
  floatToDouble : U32 → U64
  /-- `i32 as f64` cast. -/
  intToDouble : U32 → U64
  /-- `f32 as i32` cast. -/
  floatToInt : U32 → U32
  /-- `f32` multiplication by the m/s-to-knots constant `1.943_84`. -/
  mulKnots : U32 → U32
  /-- UTF-8 decoding plus `serde_json::from_str::<Command>`. -/
  parseCommand : List Nat → Option Command

/-- Association-list lookup (`HashMap::get`). -/
def lookupAssoc : List (String × DataRefValue) → String → Option DataRefValue
  | [], _ => none
  | (k, v) :: rest, key => if k = key then some v else lookupAssoc rest key

/-- Association-list insert-or-replace (`HashMap::insert`). -/
def insertAssoc : List (String × DataRefValue) → String → DataRefValue →
    List (String × DataRefValue)
  | [], key, v => [(key, v)]
  | (k, w) :: rest, key, v =>
      if k = key then (k, v) :: rest else (k, w) :: insertAssoc rest key v

/-- The mutable interior of `MockXplm` (`MockInner` in `xplm_shim.rs`). -/
structure MockXplm where
  datarefs : List (String × DataRefValue) := []
  handles : List String := []
  set_float_log : List (String × U32) := []
  set_int_log : List (String × U32) := []
  log_messages : List String := []
deriving DecidableEq

/-- `MockXplm::set_dataref` (test helper: pre-populate a value). -/
def MockXplm.set_dataref (x : MockXplm) (path : String) (v : DataRefValue) :
    MockXplm :=
  { x with datarefs := insertAssoc x.datarefs path v }

/-- `MockXplm::find_dataref`: `None` for an unknown path; otherwise reuse the
previously assigned handle or assign the next index. -/
def MockXplm.find_dataref (x : MockXplm) (path : String) :
    Option Nat × MockXplm :=
  if (lookupAssoc x.datarefs path).isNone then (none, x)
  else
    match x.handles.findIdx? (fun p => p = path) with
    | some idx => (some idx, x)
    | none => (some x.handles.length, { x with handles := x.handles ++ [path] })

/-- `MockXplm::get_float` (missing handles resolve to the empty path). -/
def MockXplm.get_float (env : Env) (x : MockXplm) (handle : Nat) : U32 :=
  match lookupAssoc x.datarefs (x.handles.getD handle ("")) with
  | some (.Float v) => v
  | some (.Double v) => env.doubleToFloat v
  | some (.Int v) => env.intToFloat v
  | _ => 0

/-- `MockXplm::get_double`. -/
def MockXplm.get_double (env : Env) (x : MockXplm) (handle : Nat) : U64 :=
  match lookupAssoc x.datarefs (x.handles.getD handle ("")) with
  | some (.Double v) => v
  | some (.Float v) => env.floatToDouble v
  | some (.Int v) => env.intToDouble v
  | _ => 0

/-- `MockXplm::get_int`. -/
def MockXplm.get_int (env : Env) (x : MockXplm) (handle : Nat) : U32 :=
  match lookupAssoc x.datarefs (x.handles.getD handle ("")) with
  | some (.Int v) => v
  | some (.Float v) => env.floatToInt v
  | _ => 0

/-- `MockXplm::get_float_array`: fill the output from the stored array
(defaulting to zero past its end); leave the output untouched when the stored
value is not a float array. -/
def MockXplm.get_float_array (x : MockXplm) (handle : Nat) (offset : Nat)
    {n : Nat} (out : Mathlib.Vector U32 n) : Mathlib.Vector U32 n :=
  match lookupAssoc x.datarefs (x.handles.getD handle ("")) with
  | some (.FloatArray arr) =>
      Mathlib.Vector.ofFn (fun i => arr.getD (offset + i.val) 0)
  | _ => out

/-- `MockXplm::set_float`: store and record the write. -/
def MockXplm.set_float (x : MockXplm) (handle : Nat) (v : U32) : MockXplm :=
  { x with
    datarefs := insertAssoc x.datarefs (x.handles.getD handle ("")) (.Float v),
    set_float_log := x.set_float_log ++ [(x.handles.getD handle (""), v)] }

/-- `MockXplm::set_int`: store and record the write. -/
def MockXplm.set_int (x : MockXplm) (handle : Nat) (v : U32) : MockXplm :=
  { x with
    datarefs := insertAssoc x.datarefs (x.handles.getD handle ("")) (.Int v),
    set_int_log := x.set_int_log ++ [(x.handles.getD handle (""), v)] }

/-- `MockXplm::log`. -/
def MockXplm.log (x : MockXplm) (message : String) : MockXplm :=
  { x with log_messages := x.log_messages ++ [message] }

/-! ## Dataref paths and cached handles -/

namespace paths

def LATITUDE : String := ("sim/flightmodel/position/latitude")

def LONGITUDE : String := ("sim/flightmodel/position/longitude")

def ELEVATION_M : String := ("sim/flightmodel/position/elevation")

def GROUNDSPEED_MS : String := ("sim/flightmodel/position/groundspeed")

def PITCH_DEG : String := ("sim/flightmodel/position/theta")

def ROLL_DEG : String := ("sim/flightmodel/position/phi")

def MAG_HEADING_DEG : String := ("sim/flightmodel/position/mag_psi")

def GROUND_TRACK_DEG : String := ("sim/flightmodel/position/hpath")

def IAS_KTS : String := ("sim/flightmodel/position/indicated_airspeed")

def TRUE_AIRSPEED_MS : String := ("sim/flightmodel/position/true_airspeed")

def VVI_FPM : String := ("sim/flightmodel/position/vh_ind_fpm")

def TURN_RATE_DEG_SEC : String := ("sim/cockpit2/gauges/indicators/turn_rate_heading_deg_pilot")

def SLIP_DEG : String := ("sim/cockpit/gyros/slip_deg")

def OAT_DEGC : String := ("sim/weather/temperature_ambient_c")

def BAROMETER_INHG : String := ("sim/cockpit2/gauges/actuators/barometer_setting_in_hg_pilot")

def ENGINE_RPM : String := ("sim/cockpit2/engine/indicators/engine_speed_rpm")

def MANIFOLD_INHG : String := ("sim/cockpit2/engine/indicators/manifold_pressure_inhg")

def FUEL_FLOW_KG_SEC : String := ("sim/cockpit2/engine/indicators/fuel_flow_kg_sec")

def OIL_PRESS_PSI : String := ("sim/cockpit2/engine/indicators/oil_pressure_psi")

def OIL_TEMP_DEGC : String := ("sim/cockpit2/engine/indicators/oil_temp_deg_c")

def EGT_DEGC : String := ("sim/cockpit2/engine/indicators/EGT_deg_c")

def FUEL_QTY_KG : String := ("sim/flightmodel/weight/m_fuel")

def BUS_VOLTS : String := ("sim/cockpit2/electrical/bus_volts")

def BATTERY_AMPS : String := ("sim/cockpit2/electrical/battery_amps_total")

def SUCTION_INHG : String := ("sim/cockpit2/gauges/indicators/airspeed_vacuum_in_hg_pilot")

def NAV1_HDEF_DOT : String := ("sim/cockpit2/radios/indicators/nav1_hdef_dots_pilot")

def NAV1_VDEF_DOT : String := ("sim/cockpit2/radios/indicators/nav1_vdef_dots_pilot")

def NAV1_OBS_DEG : String := ("sim/cockpit/radios/nav1_course_degm")

def GPS_DIST_NM : String := ("sim/cockpit2/radios/indicators/gps_dme_distance_nm")

def GPS_BEARING_DEG : String := ("sim/cockpit2/radios/indicators/gps_bearing_deg_mag")

def AP_STATE_FLAGS : String := ("sim/cockpit/autopilot/autopilot_state")

def FD_PITCH_DEG : String := ("sim/cockpit2/autopilot/flight_director_pitch_deg")

def FD_ROLL_DEG : String := ("sim/cockpit2/autopilot/flight_director_roll_deg")

def AP_HEADING_BUG_DEG : String := ("sim/cockpit/autopilot/heading_mag")

def AP_ALTITUDE_FT : String := ("sim/cockpit/autopilot/altitude")

def AP_VS_FPM : String := ("sim/cockpit/autopilot/vertical_velocity")

def COM1_ACTIVE_HZ : String := ("sim/cockpit2/radios/actuators/com1_frequency_hz")

def COM1_STANDBY_HZ : String := ("sim/cockpit2/radios/actuators/com1_standby_frequency_hz")

def COM2_ACTIVE_HZ : String := ("sim/cockpit2/radios/actuators/com2_frequency_hz")

def NAV1_ACTIVE_HZ : String := ("sim/cockpit2/radios/actuators/nav1_frequency_hz")

def NAV1_STANDBY_HZ : String := ("sim/cockpit2/radios/actuators/nav1_standby_frequency_hz")

def TRANSPONDER_CODE : String := ("sim/cockpit/radios/transponder_code")

def TRANSPONDER_MODE : String := ("sim/cockpit/radios/transponder_mode")

def OUTER_MARKER : String := ("sim/cockpit2/annunciators/outer_marker")

def MIDDLE_MARKER : String := ("sim/cockpit2/annunciators/middle_marker")

def INNER_MARKER : String := ("sim/cockpit2/annunciators/inner_marker")

def WIND_DIR_DEG : String := ("sim/weather/wind_direction_degt")

def WIND_SPEED_KT : String := ("sim/weather/wind_speed_kt")

def TRAFFIC_LAT : String := ("sim/cockpit2/tcas/targets/position/lat")

def TRAFFIC_LON : String := ("sim/cockpit2/tcas/targets/position/lon")

def TRAFFIC_ELE_M : String := ("sim/cockpit2/tcas/targets/position/ele")

def TRAFFIC_COUNT : String := ("sim/cockpit2/tcas/targets/N_targets_max")

def HSI_SOURCE : String := ("sim/cockpit2/radios/actuators/HSI_source_select_pilot")

end paths

/-- `DataRefHandles`: cached dataref handles, all absent by default. -/
structure DataRefHandles where
  latitude : Option Nat := none
  longitude : Option Nat := none
  elevation_m : Option Nat := none
  groundspeed_ms : Option Nat := none
  pitch_deg : Option Nat := none
  roll_deg : Option Nat := none
  mag_heading_deg : Option Nat := none
  ground_track_deg : Option Nat := none
  ias_kts : Option Nat := none
  true_airspeed_ms : Option Nat := none
  vvi_fpm : Option Nat := none
  turn_rate_deg_sec : Option Nat := none
  slip_deg : Option Nat := none
  oat_degc : Option Nat := none
  barometer_inhg : Option Nat := none
  engine_rpm : Option Nat := none
  manifold_inhg : Option Nat := none
  fuel_flow_kg_sec : Option Nat := none
  oil_press_psi : Option Nat := none
  oil_temp_degc : Option Nat := none
  egt_degc : Option Nat := none
  fuel_qty_kg : Option Nat := none
  bus_volts : Option Nat := none
  battery_amps : Option Nat := none
  suction_inhg : Option Nat := none
  nav1_hdef_dot : Option Nat := none
  nav1_vdef_dot : Option Nat := none
  nav1_obs_deg : Option Nat := none
  gps_dist_nm : Option Nat := none
  gps_bearing_deg : Option Nat := none
  ap_state_flags : Option Nat := none
  fd_pitch_deg : Option Nat := none
  fd_roll_deg : Option Nat := none
  ap_heading_bug_deg : Option Nat := none
  ap_altitude_ft : Option Nat := none
  ap_vs_fpm : Option Nat := none
  com1_active_hz : Option Nat := none
  com1_standby_hz : Option Nat := none
  com2_active_hz : Option Nat := none
  nav1_active_hz : Option Nat := none
  nav1_standby_hz : Option Nat := none
  transponder_code : Option Nat := none
  transponder_mode : Option Nat := none
  outer_marker : Option Nat := none
  middle_marker : Option Nat := none
  inner_marker : Option Nat := none
  wind_dir_deg : Option Nat := none
  wind_speed_kt : Option Nat := none
  traffic_lat : Option Nat := none
  traffic_lon : Option Nat := none
  traffic_ele_m : Option Nat := none
  traffic_count : Option Nat := none
  hsi_source : Option Nat := none
deriving DecidableEq

/-- One `find!` step of `EfbPlugin::find_handles`: look up the path and log
when it is missing. -/
def findOne (x : MockXplm) (path : String) : Option Nat × MockXplm :=
  match x.find_dataref path with
  | (none, x1) => (none, x1.log (("EFB: dataref not found: ") ++ path))
  | (some h, x1) => (some h, x1)

/-- The body of `EfbPlugin::find_handles`: resolve every path in order,
threading the capability state. -/
def findHandlesCore (x0 : MockXplm) : DataRefHandles × MockXplm :=
  let (h_latitude, x1) := findOne x0 paths.LATITUDE
  let (h_longitude, x2) := findOne x1 paths.LONGITUDE
  let (h_elevation_m, x3) := findOne x2 paths.ELEVATION_M
  let (h_groundspeed_ms, x4) := findOne x3 paths.GROUNDSPEED_MS
  let (h_pitch_deg, x5) := findOne x4 paths.PITCH_DEG
  let (h_roll_deg, x6) := findOne x5 paths.ROLL_DEG
  let (h_mag_heading_deg, x7) := findOne x6 paths.MAG_HEADING_DEG
  let (h_ground_track_deg, x8) := findOne x7 paths.GROUND_TRACK_DEG
  let (h_ias_kts, x9) := findOne x8 paths.IAS_KTS
  let (h_true_airspeed_ms, x10) := findOne x9 paths.TRUE_AIRSPEED_MS
  let (h_vvi_fpm, x11) := findOne x10 paths.VVI_FPM
  let (h_turn_rate_deg_sec, x12) := findOne x11 paths.TURN_RATE_DEG_SEC
  let (h_slip_deg, x13) := findOne x12 paths.SLIP_DEG
  let (h_oat_degc, x14) := findOne x13 paths.OAT_DEGC
  let (h_barometer_inhg, x15) := findOne x14 paths.BAROMETER_INHG
  let (h_engine_rpm, x16) := findOne x15 paths.ENGINE_RPM
  let (h_manifold_inhg, x17) := findOne x16 paths.MANIFOLD_INHG
  let (h_fuel_flow_kg_sec, x18) := findOne x17 paths.FUEL_FLOW_KG_SEC
  let (h_oil_press_psi, x19) := findOne x18 paths.OIL_PRESS_PSI
  let (h_oil_temp_degc, x20) := findOne x19 paths.OIL_TEMP_DEGC
  let (h_egt_degc, x21) := findOne x20 paths.EGT_DEGC
  let (h_fuel_qty_kg, x22) := findOne x21 paths.FUEL_QTY_KG
  let (h_bus_volts, x23) := findOne x22 paths.BUS_VOLTS
  let (h_battery_amps, x24) := findOne x23 paths.BATTERY_AMPS
  let (h_suction_inhg, x25) := findOne x24 paths.SUCTION_INHG
  let (h_nav1_hdef_dot, x26) := findOne x25 paths.NAV1_HDEF_DOT
  let (h_nav1_vdef_dot, x27) := findOne x26 paths.NAV1_VDEF_DOT
  let (h_nav1_obs_deg, x28) := findOne x27 paths.NAV1_OBS_DEG
  let (h_gps_dist_nm, x29) := findOne x28 paths.GPS_DIST_NM
  let (h_gps_bearing_deg, x30) := findOne x29 paths.GPS_BEARING_DEG
  let (h_ap_state_flags, x31) := findOne x30 paths.AP_STATE_FLAGS
  let (h_fd_pitch_deg, x32) := findOne x31 paths.FD_PITCH_DEG
  let (h_fd_roll_deg, x33) := findOne x32 paths.FD_ROLL_DEG
  let (h_ap_heading_bug_deg, x34) := findOne x33 paths.AP_HEADING_BUG_DEG
  let (h_ap_altitude_ft, x35) := findOne x34 paths.AP_ALTITUDE_FT
  let (h_ap_vs_fpm, x36) := findOne x35 paths.AP_VS_FPM
  let (h_com1_active_hz, x37) := findOne x36 paths.COM1_ACTIVE_HZ
  let (h_com1_standby_hz, x38) := findOne x37 paths.COM1_STANDBY_HZ
  let (h_com2_active_hz, x39) := findOne x38 paths.COM2_ACTIVE_HZ
  let (h_nav1_active_hz, x40) := findOne x39 paths.NAV1_ACTIVE_HZ
  let (h_nav1_standby_hz, x41) := findOne x40 paths.NAV1_STANDBY_HZ
  let (h_transponder_code, x42) := findOne x41 paths.TRANSPONDER_CODE
  let (h_transponder_mode, x43) := findOne x42 paths.TRANSPONDER_MODE
  let (h_outer_marker, x44) := findOne x43 paths.OUTER_MARKER
  let (h_middle_marker, x45) := findOne x44 paths.MIDDLE_MARKER
  let (h_inner_marker, x46) := findOne x45 paths.INNER_MARKER
  let (h_wind_dir_deg, x47) := findOne x46 paths.WIND_DIR_DEG
  let (h_wind_speed_kt, x48) := findOne x47 paths.WIND_SPEED_KT
  let (h_traffic_lat, x49) := findOne x48 paths.TRAFFIC_LAT
  let (h_traffic_lon, x50) := findOne x49 paths.TRAFFIC_LON
  let (h_traffic_ele_m, x51) := findOne x50 paths.TRAFFIC_ELE_M
  let (h_traffic_count, x52) := findOne x51 paths.TRAFFIC_COUNT
  let (h_hsi_source, x53) := findOne x52 paths.HSI_SOURCE
  ({ latitude := h_latitude, longitude := h_longitude, elevation_m := h_elevation_m, groundspeed_ms := h_groundspeed_ms, pitch_deg := h_pitch_deg, roll_deg := h_roll_deg, mag_heading_deg := h_mag_heading_deg, ground_track_deg := h_ground_track_deg, ias_kts := h_ias_kts, true_airspeed_ms := h_true_airspeed_ms, vvi_fpm := h_vvi_fpm, turn_rate_deg_sec := h_turn_rate_deg_sec, slip_deg := h_slip_deg, oat_degc := h_oat_degc, barometer_inhg := h_barometer_inhg, engine_rpm := h_engine_rpm, manifold_inhg := h_manifold_inhg, fuel_flow_kg_sec := h_fuel_flow_kg_sec, oil_press_psi := h_oil_press_psi, oil_temp_degc := h_oil_temp_degc, egt_degc := h_egt_degc, fuel_qty_kg := h_fuel_qty_kg, bus_volts := h_bus_volts, battery_amps := h_battery_amps, suction_inhg := h_suction_inhg, nav1_hdef_dot := h_nav1_hdef_dot, nav1_vdef_dot := h_nav1_vdef_dot, nav1_obs_deg := h_nav1_obs_deg, gps_dist_nm := h_gps_dist_nm, gps_bearing_deg := h_gps_bearing_deg, ap_state_flags := h_ap_state_flags, fd_pitch_deg := h_fd_pitch_deg, fd_roll_deg := h_fd_roll_deg, ap_heading_bug_deg := h_ap_heading_bug_deg, ap_altitude_ft := h_ap_altitude_ft, ap_vs_fpm := h_ap_vs_fpm, com1_active_hz := h_com1_active_hz, com1_standby_hz := h_com1_standby_hz, com2_active_hz := h_com2_active_hz, nav1_active_hz := h_nav1_active_hz, nav1_standby_hz := h_nav1_standby_hz, transponder_code := h_transponder_code, transponder_mode := h_transponder_mode, outer_marker := h_outer_marker, middle_marker := h_middle_marker, inner_marker := h_inner_marker, wind_dir_deg := h_wind_dir_deg, wind_speed_kt := h_wind_speed_kt, traffic_lat := h_traffic_lat, traffic_lon := h_traffic_lon, traffic_ele_m := h_traffic_ele_m, traffic_count := h_traffic_count, hsi_source := h_hsi_source }, x53)



/-! ## Plugin session state -/

/-- The `EfbPlugin` session state.  The UDP socket itself is external; sends
appear in the output of `flight_loop_tick`.  `cmd_rx` is `none` before
`start_command_server` created the channel, otherwise it holds the queued
messages in arrival order. -/
structure EfbPlugin where
  xplm : MockXplm
  tablet_addr : Option Addr
  last_ack_time : Nat
  sequence : U32
  handles : DataRefHandles
  streaming_rate_hz : Nat
  cmd_rx : Option (List InternalMsg)
deriving DecidableEq

/-- `EfbPlugin::new`: no peer, fresh ack timestamp, sequence `0`, empty
handles, default rate. -/
def EfbPlugin.new (now : Nat) (x : MockXplm) : EfbPlugin :=
  { xplm := x, tablet_addr := none, last_ack_time := now, sequence := 0,
    handles := {}, streaming_rate_hz := DEFAULT_HZ, cmd_rx := none }

/-- `EfbPlugin::find_handles`: refresh every cached handle. -/
def EfbPlugin.find_handles (st : EfbPlugin) : EfbPlugin :=
  let fh := findHandlesCore st.xplm
  { st with handles := fh.1, xplm := fh.2 }

/-- `h.map_or(0.0, |h| get_float(h))` and friends. -/
def gfOpt (env : Env) (x : MockXplm) : Option Nat → U32
  | some h => x.get_float env h
  | none => 0

def gdOpt (env : Env) (x : MockXplm) : Option Nat → U64
  | some h => x.get_double env h
  | none => 0

def giOpt (env : Env) (x : MockXplm) : Option Nat → U32
  | some h => x.get_int env h
  | none => 0

/-- `if let Some(h) = h { get_float_array(h, 0, out) }`. -/
def gfaOpt (x : MockXplm) {n : Nat} (h : Option Nat)
    (out : Mathlib.Vector U32 n) : Mathlib.Vector U32 n :=
  match h with
  | some h => x.get_float_array h 0 out
  | none => out

/-- An all-zero float array (`[0f32; n]`). -/
def zeros (n : Nat) : Mathlib.Vector U32 n := Mathlib.Vector.replicate n 0

/-- `i32 as usize` on a 64-bit host: sign-extend, then reinterpret. -/
def i32ToUsize (b : U32) : Nat :=
  if b.val < 2 ^ 31 then b.val else 2 ^ 64 - 2 ^ 32 + b.val

/-- `EfbPlugin::read_snapshot`: read every dataref and assemble a
`SimSnapshot`. -/
def EfbPlugin.read_snapshot (env : Env) (st : EfbPlugin) : SimSnapshot :=
  let x := st.xplm
  let egt := gfaOpt x st.handles.egt_degc (zeros 6)
  let fuel := gfaOpt x st.handles.fuel_qty_kg (zeros 2)
  let bus_a := gfaOpt x st.handles.bus_volts (zeros 1)
  let bat_a := gfaOpt x st.handles.battery_amps (zeros 1)
  let suc_a := gfaOpt x st.handles.suction_inhg (zeros 1)
  let eng_rpm := gfaOpt x st.handles.engine_rpm (zeros 1)
  let mani := gfaOpt x st.handles.manifold_inhg (zeros 1)
  let ff := gfaOpt x st.handles.fuel_flow_kg_sec (zeros 1)
  let oil_p := gfaOpt x st.handles.oil_press_psi (zeros 1)
  let oil_t := gfaOpt x st.handles.oil_temp_degc (zeros 1)
  let traffic_count_n := min (i32ToUsize (giOpt env x st.handles.traffic_count)) 20
  let traffic_lat :=
    if 0 < traffic_count_n then gfaOpt x st.handles.traffic_lat (zeros 20)
    else zeros 20
  let traffic_lon :=
    if 0 < traffic_count_n then gfaOpt x st.handles.traffic_lon (zeros 20)
    else zeros 20
  let traffic_ele :=
    if 0 < traffic_count_n then gfaOpt x st.handles.traffic_ele_m (zeros 20)
    else zeros 20
  { latitude := gdOpt env x st.handles.latitude,
    longitude := gdOpt env x st.handles.longitude,
    elevation_m := gdOpt env x st.handles.elevation_m,
    groundspeed_ms := gfOpt env x st.handles.groundspeed_ms,
    pitch_deg := gfOpt env x st.handles.pitch_deg,
    roll_deg := gfOpt env x st.handles.roll_deg,
    mag_heading_deg := gfOpt env x st.handles.mag_heading_deg,
    ground_track_deg := gfOpt env x st.handles.ground_track_deg,
    ias_kts := gfOpt env x st.handles.ias_kts,
    tas_kts := env.mulKnots (gfOpt env x st.handles.true_airspeed_ms),
    vvi_fpm := gfOpt env x st.handles.vvi_fpm,
    turn_rate_deg_sec := gfOpt env x st.handles.turn_rate_deg_sec,
    slip_deg := gfOpt env x st.handles.slip_deg,
    oat_degc := gfOpt env x st.handles.oat_degc,
    barometer_inhg := gfOpt env x st.handles.barometer_inhg,
    rpm := eng_rpm.head,
    map_inhg := mani.head,
    fuel_flow_kg_sec := ff.head,
    oil_press_psi := oil_p.head,
    oil_temp_degc := oil_t.head,
    egt_degc := egt,
    fuel_qty_kg := fuel,
    bus_volts := bus_a.head,
    battery_amps := bat_a.head,
    suction_inhg := suc_a.head,
    nav1_hdef_dot := gfOpt env x st.handles.nav1_hdef_dot,
    nav1_vdef_dot := gfOpt env x st.handles.nav1_vdef_dot,
    nav1_obs_deg := gfOpt env x st.handles.nav1_obs_deg,
    gps_dist_nm := gfOpt env x st.handles.gps_dist_nm,
    gps_bearing_deg := gfOpt env x st.handles.gps_bearing_deg,
    ap_state_flags := giOpt env x st.handles.ap_state_flags,
    fd_pitch_deg := gfOpt env x st.handles.fd_pitch_deg,
    fd_roll_deg := gfOpt env x st.handles.fd_roll_deg,
    ap_heading_bug_deg := gfOpt env x st.handles.ap_heading_bug_deg,
    ap_altitude_ft := gfOpt env x st.handles.ap_altitude_ft,
    ap_vs_fpm := gfOpt env x st.handles.ap_vs_fpm,
    com1_active_hz := giOpt env x st.handles.com1_active_hz,
    com1_standby_hz := giOpt env x st.handles.com1_standby_hz,
    com2_active_hz := giOpt env x st.handles.com2_active_hz,
    nav1_active_hz := giOpt env x st.handles.nav1_active_hz,
    nav1_standby_hz := giOpt env x st.handles.nav1_standby_hz,
    transponder_code := giOpt env x st.handles.transponder_code,
    transponder_mode := giOpt env x st.handles.transponder_mode,
    outer_marker := giOpt env x st.handles.outer_marker != 0,
    middle_marker := giOpt env x st.handles.middle_marker != 0,
    inner_marker := giOpt env x st.handles.inner_marker != 0,
    wind_dir_deg := gfOpt env x st.handles.wind_dir_deg,
    wind_speed_kt := gfOpt env x st.handles.wind_speed_kt,
    traffic_lat := traffic_lat,
    traffic_lon := traffic_lon,
    traffic_ele_m := traffic_ele,
    traffic_count :=
      ⟨traffic_count_n,
        Nat.lt_of_le_of_lt (Nat.min_le_right _ _) (by norm_num)⟩,
    hsi_source := giOpt env x st.handles.hsi_source }

/-- `EfbPlugin::is_streaming_active`: the tablet has acked within the
watchdog window. -/
def EfbPlugin.is_streaming_active (now : Nat) (st : EfbPlugin) : Bool :=
  now - st.last_ack_time ≤ WATCHDOG_TIMEOUT

/-- `EfbPlugin::swap_freq`. -/
def EfbPlugin.swap_freq (env : Env) (radio : String) (st : EfbPlugin) :
    EfbPlugin :=
  let pair : Option (Option Nat × Option Nat) :=
    if radio = ("COM1") then some (st.handles.com1_active_hz, st.handles.com1_standby_hz)
    else if radio = ("COM2") then some (st.handles.com2_active_hz, none)
    else if radio = ("NAV1") then some (st.handles.nav1_active_hz, st.handles.nav1_standby_hz)
    else none
  match pair with
  | none => st
  | some (some ah, some sh) =>
      let a := st.xplm.get_int env ah
      let s := st.xplm.get_int env sh
      { st with xplm := (st.xplm.set_int ah s).set_int sh a }
  | some _ => st

/-- `EfbPlugin::handle_command`: parse the JSON payload and apply it;
parse failures change nothing. -/
def EfbPlugin.handle_command (env : Env) (st : EfbPlugin)
    (payload : List Nat) : EfbPlugin :=
  match env.parseCommand payload with
  | none => st
  | some (.SetDataref path value) =>
      match st.xplm.find_dataref path with
      | (some h, x1) =>
          { st with xplm := x1.set_float h (env.doubleToFloat value) }
      | (none, x1) => { st with xplm := x1 }
  | some (.SwapFreq radio) => st.swap_freq env radio

/-- `EfbPlugin::handle_internal_msg`. -/
def EfbPlugin.handle_internal_msg (env : Env) (now : Nat) (st : EfbPlugin) :
    InternalMsg → EfbPlugin
  | .Ack addr => { st with last_ack_time := now, tablet_addr := some addr }
  | .Command payload => st.handle_command env payload
  | .Reload => st.find_handles

/-- `EfbPlugin::drain_messages`: collect all pending messages and apply them
in arrival order; without a channel, nothing happens. -/
def EfbPlugin.drain_messages (env : Env) (now : Nat) (st : EfbPlugin) :
    EfbPlugin :=
  match st.cmd_rx with
  | none => st
  | some msgs =>
      msgs.foldl (fun acc msg => acc.handle_internal_msg env now msg)
        { st with cmd_rx := some [] }

/-- Two-digit uppercase hex rendering of a byte (`{t:02X}`). -/
def hexDigit (n : Nat) : String :=
  if n = 0 then ("0") else if n = 1 then ("1") else if n = 2 then ("2")
  else if n = 3 then ("3") else if n = 4 then ("4") else if n = 5 then ("5")
  else if n = 6 then ("6") else if n = 7 then ("7") else if n = 8 then ("8")
  else if n = 9 then ("9") else if n = 10 then ("A") else if n = 11 then ("B")
  else if n = 12 then ("C") else if n = 13 then ("D") else if n = 14 then ("E")
  else ("F")

def hexByte (t : Nat) : String := hexDigit (t / 16 % 16) ++ hexDigit (t % 16)

/-- The `Display` strings of `ProtocolError`. -/
def ProtocolError.toMessage : ProtocolError → String
  | .TooShort => ("packet too short")
  | .BadMagic => ("bad magic bytes")
  | .BadVersion => ("unsupported protocol version")
  | .UnknownPacketType t => ("unknown packet type 0x") ++ hexByte t
  | .PayloadTooLarge => ("payload exceeds 64 KiB limit")
  | .TruncatedPayload => ("payload truncated")
  | .BadChecksum => ("CRC-32 mismatch")

/-- `EfbPlugin::handle_incoming_packet`: decode and classify one datagram. -/
def EfbPlugin.handle_incoming_packet (env : Env) (now : Nat)
    (buf : List Nat) (src : Addr) (st : EfbPlugin) : EfbPlugin :=
  match decode_packet buf with
  | .ok (_, .Ack, _) =>
      { st with last_ack_time := now, tablet_addr := some src }
  | .ok (_, .CommandJson, payload) => st.handle_command env payload
  | .ok (_, .Reload, _) => st.find_handles
  | .ok (_, .SimData, _) => st
  | .error e =>
      { st with xplm := st.xplm.log (("EFB: dropped packet: ") ++ e.toMessage) }

/-- `EfbPlugin::flight_loop_tick`: returns the requested next interval, the
new state, and the datagrams sent this tick. -/
def EfbPlugin.flight_loop_tick (env : Env) (now : Nat) (st : EfbPlugin) :
    Rat × EfbPlugin × List (Addr × List Nat) :=
  let interval : Rat := 1 / (st.streaming_rate_hz : Rat)
  let st1 := st.drain_messages env now
  if !(st1.is_streaming_active now) then (interval, st1, [])
  else
    match st1.tablet_addr with
    | some addr =>
        let snap := st1.read_snapshot env
        let seq := st1.sequence
        (interval, { st1 with sequence := st1.sequence + 1 },
          [(addr, encode_sim_data seq snap)])
    | none => (interval, st1, [])

/-- Modelled from the specification wording of the tick (claim C3): first
drain every queued message in arrival order, then pause when more than five
seconds have elapsed since the last ack, otherwise send exactly one encoded
SimData frame to the known peer (nothing without a peer); always request the
`1 / streaming_rate_hz` interval. -/
def flight_loop_tick_spec (env : Env) (now : Nat) (st : EfbPlugin) :
    Rat × EfbPlugin × List (Addr × List Nat) :=
  let st1 := st.drain_messages env now
  if now - st1.last_ack_time > WATCHDOG_TIMEOUT then
    (1 / (st.streaming_rate_hz : Rat), st1, [])
  else
    match st1.tablet_addr with
    | some peer =>
        (1 / (st.streaming_rate_hz : Rat),
          { st1 with sequence := st1.sequence + 1 },
          [(peer, encode_sim_data st1.sequence (st1.read_snapshot env))])
    | none => (1 / (st.streaming_rate_hz : Rat), st1, [])



/-! ## Claim theorems -/

/-- Shared helper: on byte strings the decoder equals the claim ladder. -/
theorem decode_packet_eq_decode_spec (buf : List Nat) (h : IsBytes buf) :
    decode_packet buf = decode_spec buf := by
  unfold decode_packet decode_spec
  rw [specPacketType_eq_fromU8]
  simp only [if_neg (readU16_le_max buf h 7), HEADER_LEN, MAGIC,
    PROTOCOL_VERSION]

/-- C7: the codec checksum is the CRC-32 / ISO-HDLC reference function
(bitwise LSB-first, reflected polynomial 0xEDB88320, seed 0xFFFFFFFF, final
complement) on every byte string, and it maps the ASCII bytes of the
standard check string to 0xCBF43926 and the empty string to 0. -/
theorem c7_crc32_is_iso_hdlc :
    (∀ data : List Nat, IsBytes data → crc32 data = crc32Ref data) ∧
    crc32 [0x31, 0x32, 0x33, 0x34, 0x35, 0x36, 0x37, 0x38, 0x39] =
      0xCBF43926 ∧
    crc32 [] = 0 := by
  refine ⟨fun data h => crc32_eq_ref data h, ?_, ?_⟩ <;> decide

/-- Witness for C7 at a concrete byte string. -/
theorem c7_crc32_is_iso_hdlc_witness :
    IsBytes [0x31, 0x32] ∧ crc32 [0x31, 0x32] = crc32Ref [0x31, 0x32] :=
  ⟨by decide, c7_crc32_is_iso_hdlc.1 [0x31, 0x32] (by decide)⟩

/-- C1: on every byte buffer the decoder returns exactly the error prescribed
by the validation ladder of the specification (TooShort, then BadMagic, then
BadVersion, then UnknownPacketType, then TruncatedPayload, then BadChecksum),
and otherwise succeeds with the validated header, the packet type, and the
payload view of exactly `payload_len` bytes starting at offset 17. -/
theorem c1_decode_validation_ladder (buf : List Nat) (h : IsBytes buf) :
    decode_packet buf = decode_spec buf :=
  decode_packet_eq_decode_spec buf h

/-- Witness for C1 at a concrete buffer. -/
theorem c1_decode_validation_ladder_witness :
    IsBytes [0xFF, 0x00, 0x12] ∧
      decode_packet [0xFF, 0x00, 0x12] = decode_spec [0xFF, 0x00, 0x12] :=
  ⟨by decide, c1_decode_validation_ladder [0xFF, 0x00, 0x12] (by decide)⟩

/-- C10: on byte buffers the decoder can never report `PayloadTooLarge`,
because the declared payload length is parsed from a 16-bit little-endian
field and so never exceeds `MAX_PAYLOAD_LEN`. -/
theorem c10_payload_too_large_unreachable (buf : List Nat) (h : IsBytes buf) :
    decode_packet buf ≠ Except.error ProtocolError.PayloadTooLarge := by
  rw [decode_packet_eq_decode_spec buf h]
  unfold decode_spec
  split
  · simp
  · split
    · simp
    · split
      · simp
      · split
        · simp
        · split
          · simp
          · split
            · simp
            · simp

/-- Witness for C10 at a concrete buffer. -/
theorem c10_payload_too_large_unreachable_witness :
    IsBytes [0x45, 0x23] ∧
      decode_packet [0x45, 0x23] ≠ Except.error ProtocolError.PayloadTooLarge :=
  ⟨by decide, c10_payload_too_large_unreachable [0x45, 0x23] (by decide)⟩

/-- C2: encoding any snapshot and decoding the frame succeeds as SimData,
preserves the sequence number in the header, and `decode_sim_data` on the
returned payload restores every field of the snapshot bit-exactly. -/
theorem c2_encode_decode_roundtrip (seq : U32) (s : SimSnapshot) :
    ∃ (hdr : PacketHeader) (payload : List Nat),
      decode_packet (encode_sim_data seq s) =
        Except.ok (hdr, PacketType.SimData, payload) ∧
      hdr.sequence = seq.val ∧
      decode_sim_data payload = Except.ok s := by
  refine ⟨_, serialize_snapshot s, decode_encode_sim_data seq s, rfl, ?_⟩
  unfold decode_sim_data
  rw [deserialize_serialize]



/-- C3: every flight-loop tick first drains the queued messages in arrival
order, pauses (sending nothing) when more than five seconds have elapsed
since the last ack, otherwise sends exactly one encoded SimData frame built
from a fresh snapshot and the next sequence value to the known peer (nothing
when no peer is known), and always returns the `1 / streaming_rate_hz`
interval. -/
theorem c3_tick_refines_spec (env : Env) (now : Nat) (st : EfbPlugin) :
    EfbPlugin.flight_loop_tick env now st = flight_loop_tick_spec env now st := by
  unfold EfbPlugin.flight_loop_tick flight_loop_tick_spec
  by_cases h : now - (st.drain_messages env now).last_ack_time ≤ WATCHDOG_TIMEOUT
  · have h2 : ¬ (now - (st.drain_messages env now).last_ack_time >
        WATCHDOG_TIMEOUT) := by omega
    simp [EfbPlugin.is_streaming_active, h, h2]
  · have h2 : now - (st.drain_messages env now).last_ack_time >
        WATCHDOG_TIMEOUT := by omega
    simp [EfbPlugin.is_streaming_active, h, h2]

/-- C4: a validated inbound Ack records the sender as the peer, stamps the
watchdog with the current instant (making the session report active, even if
it was inactive before), and changes nothing else in the session state. -/
theorem c4_ack_records_peer_and_resets_watchdog (env : Env) (now : Nat)
    (buf : List Nat) (src : Addr) (st : EfbPlugin) (hdr : PacketHeader)
    (pl : List Nat)
    (hdec : decode_packet buf = Except.ok (hdr, PacketType.Ack, pl)) :
    (st.handle_incoming_packet env now buf src).tablet_addr = some src ∧
    (st.handle_incoming_packet env now buf src).last_ack_time = now ∧
    (st.handle_incoming_packet env now buf src).is_streaming_active now = true ∧
    (st.handle_incoming_packet env now buf src).sequence = st.sequence ∧
    (st.handle_incoming_packet env now buf src).streaming_rate_hz =
      st.streaming_rate_hz ∧
    (st.handle_incoming_packet env now buf src).handles = st.handles ∧
    (st.handle_incoming_packet env now buf src).xplm = st.xplm ∧
    (st.handle_incoming_packet env now buf src).cmd_rx = st.cmd_rx ∧
    (st.last_ack_time + WATCHDOG_TIMEOUT < now →
      st.is_streaming_active now = false) := by
  unfold EfbPlugin.handle_incoming_packet
  rw [hdec]
  refine ⟨rfl, rfl, ?_, rfl, rfl, rfl, rfl, rfl, ?_⟩
  · simp [EfbPlugin.is_streaming_active]
  · intro hlate
    simp only [EfbPlugin.is_streaming_active, WATCHDOG_TIMEOUT] at hlate ⊢
    simp only [decide_eq_false_iff_not]
    omega

/-- A trivial environment for concrete evaluations: all conversions zero, no
command parses. -/
def env0 : Env :=
  { doubleToFloat := fun _ => 0, intToFloat := fun _ => 0,
    floatToDouble := fun _ => 0, intToDouble := fun _ => 0,
    floatToInt := fun _ => 0, mulKnots := fun _ => 0,
    parseCommand := fun _ => none }

/-- A concrete zero-payload Ack frame. -/
def ackFrame : List Nat := build_packet 0 PacketType.Ack []

/-- A concrete zero-payload Reload frame. -/
def reloadFrame : List Nat := build_packet 0 PacketType.Reload []

/-- A concrete peer address. -/
def addr0 : Addr := ("10.0.0.1:49100")

/-- Witness for C4: a concrete Ack datagram processed by a fresh plugin. -/
theorem c4_ack_records_peer_and_resets_watchdog_witness :
    decode_packet ackFrame =
      Except.ok (⟨0xEFB12345, 1, 3, 0, 0, 0⟩, PacketType.Ack, []) ∧
    ((EfbPlugin.new 5 {}).handle_incoming_packet env0 7 ackFrame
      addr0).tablet_addr = some addr0 :=
  ⟨by decide,
    (c4_ack_records_peer_and_resets_watchdog env0 7 ackFrame addr0
      (EfbPlugin.new 5 {}) ⟨0xEFB12345, 1, 3, 0, 0, 0⟩ []
      (by decide)).1⟩

/-- Reduction helper: a validated Reload datagram routes to `find_handles`. -/
theorem handle_incoming_packet_reload (env : Env) (now : Nat) (buf : List Nat)
    (src : Addr) (st : EfbPlugin) (hdr : PacketHeader) (pl : List Nat)
    (hdec : decode_packet buf = Except.ok (hdr, PacketType.Reload, pl)) :
    st.handle_incoming_packet env now buf src = st.find_handles := by
  unfold EfbPlugin.handle_incoming_packet
  rw [hdec]

/-- C8: a validated inbound Reload re-resolves every cached dataref handle
and changes nothing else: peer address, watchdog timestamp, sequence counter,
streaming rate, and queue are untouched. -/
theorem c8_reload_reresolves_handles_only (env : Env) (now : Nat)
    (buf : List Nat) (src : Addr) (st : EfbPlugin) (hdr : PacketHeader)
    (pl : List Nat)
    (hdec : decode_packet buf = Except.ok (hdr, PacketType.Reload, pl)) :
    (st.handle_incoming_packet env now buf src).handles =
      (findHandlesCore st.xplm).1 ∧
    (st.handle_incoming_packet env now buf src).xplm =
      (findHandlesCore st.xplm).2 ∧
    (st.handle_incoming_packet env now buf src).tablet_addr = st.tablet_addr ∧
    (st.handle_incoming_packet env now buf src).last_ack_time =
      st.last_ack_time ∧
    (st.handle_incoming_packet env now buf src).sequence = st.sequence ∧
    (st.handle_incoming_packet env now buf src).streaming_rate_hz =
      st.streaming_rate_hz ∧
    (st.handle_incoming_packet env now buf src).cmd_rx = st.cmd_rx := by
  rw [handle_incoming_packet_reload env now buf src st hdr pl hdec]
  simp [EfbPlugin.find_handles]

/-- Witness for C8: a concrete Reload datagram processed by a fresh plugin. -/
theorem c8_reload_reresolves_handles_only_witness :
    decode_packet reloadFrame =
      Except.ok (⟨0xEFB12345, 1, 4, 0, 0, 0⟩, PacketType.Reload, []) ∧
    ((EfbPlugin.new 5 {}).handle_incoming_packet env0 7 reloadFrame
      addr0).tablet_addr = (EfbPlugin.new 5 {}).tablet_addr :=
  ⟨by decide,
    (c8_reload_reresolves_handles_only env0 7 reloadFrame addr0
      (EfbPlugin.new 5 {}) ⟨0xEFB12345, 1, 4, 0, 0, 0⟩ []
      (by decide)).2.2.1⟩



/-! ## Lemmas about the mock capability state -/

theorem lookupAssoc_insertAssoc (m : List (String × DataRefValue))
    (k : String) (v : DataRefValue) :
    lookupAssoc (insertAssoc m k v) k = some v := by
  induction m with
  | nil => simp [insertAssoc, lookupAssoc]
  | cons p rest ih =>
      obtain ⟨k1, w⟩ := p
      by_cases h : k1 = k
      · simp [insertAssoc, lookupAssoc, h]
      · simp [insertAssoc, lookupAssoc, h, ih]

/-- Writing a float through a handle and reading it back through the same
handle returns exactly the written value. -/
theorem get_float_set_float (env : Env) (x : MockXplm) (h : Nat) (v : U32) :
    (x.set_float h v).get_float env h = v := by
  unfold MockXplm.set_float MockXplm.get_float
  simp [lookupAssoc_insertAssoc]

/-- A failed resolution leaves the capability state untouched. -/
theorem find_dataref_none_snd (x : MockXplm) (path : String)
    (h : (x.find_dataref path).1 = none) : (x.find_dataref path).2 = x := by
  unfold MockXplm.find_dataref at h ⊢
  split at h
  · split
    · rfl
    · simp_all
  · split at h <;> simp_all

/-- C9: a parsed `SetDataref` command writes the narrowed value through the
resolved handle (and a subsequent read through that handle returns exactly
the written value); when resolution fails the whole session state is
unchanged. -/
theorem c9_set_dataref_resolves_or_noop (env : Env) (st : EfbPlugin)
    (payload : List Nat) (path : String) (value : U64)
    (hparse : env.parseCommand payload =
      some (Command.SetDataref path value)) :
    (∀ h x1, st.xplm.find_dataref path = (some h, x1) →
      st.handle_command env payload =
        { st with xplm := x1.set_float h (env.doubleToFloat value) } ∧
      (st.handle_command env payload).xplm.get_float env h =
        env.doubleToFloat value) ∧
    ((st.xplm.find_dataref path).1 = none →
      st.handle_command env payload = st) := by
  constructor
  · intro h x1 hfind
    have hcmd : st.handle_command env payload =
        { st with xplm := x1.set_float h (env.doubleToFloat value) } := by
      unfold EfbPlugin.handle_command
      rw [hparse]
      simp only [hfind]
    exact ⟨hcmd, by rw [hcmd]; exact get_float_set_float env x1 h _⟩
  · intro hnone
    have hpair : st.xplm.find_dataref path = (none, st.xplm) := by
      have hsnd := find_dataref_none_snd st.xplm path hnone
      exact Prod.ext hnone hsnd
    unfold EfbPlugin.handle_command
    rw [hparse]
    simp only [hpair]

/-- Concrete scenario pieces for the C9 witness. -/
def pathC9 : String := ("sim/cockpit/autopilot/heading_mag")

def mockC9 : MockXplm := MockXplm.set_dataref {} pathC9 (DataRefValue.Float 0)

def stC9 : EfbPlugin := EfbPlugin.new 0 mockC9

def envC9 : Env :=
  { env0 with doubleToFloat := fun _ => 270, parseCommand := fun _ => some (Command.SetDataref pathC9 270) }

/-- Witness for C9: a resolvable path; the written value reads back. -/
theorem c9_set_dataref_resolves_or_noop_witness :
    envC9.parseCommand [] = some (Command.SetDataref pathC9 270) ∧
    stC9.xplm.find_dataref pathC9 =
      (some 0, { mockC9 with handles := [pathC9] }) ∧
    (stC9.handle_command envC9 []).xplm.get_float envC9 0 = 270 := by
  refine ⟨rfl, by decide, ?_⟩
  exact ((c9_set_dataref_resolves_or_noop envC9 stC9 [] pathC9 270 rfl).1 0
    { mockC9 with handles := [pathC9] } (by decide)).2

/-- C5: with both COM1 (respectively NAV1) handles cached, `swap_freq` reads
both current values and writes each back through the other handle; COM2 never
writes (no standby handle is cached); any other radio string never writes. -/
theorem c5_swap_freq_com1_nav1_com2 (env : Env) (st : EfbPlugin) :
    (∀ ah sh, st.handles.com1_active_hz = some ah →
      st.handles.com1_standby_hz = some sh →
      st.swap_freq env ("COM1") =
        { st with xplm := (st.xplm.set_int ah
            (st.xplm.get_int env sh)).set_int sh (st.xplm.get_int env ah) }) ∧
    (∀ ah sh, st.handles.nav1_active_hz = some ah →
      st.handles.nav1_standby_hz = some sh →
      st.swap_freq env ("NAV1") =
        { st with xplm := (st.xplm.set_int ah
            (st.xplm.get_int env sh)).set_int sh (st.xplm.get_int env ah) }) ∧
    st.swap_freq env ("COM2") = st ∧
    (∀ radio, radio ≠ ("COM1") → radio ≠ ("COM2") → radio ≠ ("NAV1") →
      st.swap_freq env radio = st) := by
  refine ⟨?_, ?_, ?_, ?_⟩
  · intro ah sh hah hsh
    unfold EfbPlugin.swap_freq
    rw [hah, hsh]
    rfl
  · intro ah sh hah hsh
    unfold EfbPlugin.swap_freq
    rw [hah, hsh]
    rfl
  · unfold EfbPlugin.swap_freq
    cases st.handles.com2_active_hz <;> rfl
  · intro radio h1 h2 h3
    unfold EfbPlugin.swap_freq
    simp [h1, h2, h3]

/-- Concrete scenario pieces for the C5 witness: COM1 active and standby
cached at handles 0 and 1, holding 118025000 and 121500000. -/
def mockC5 : MockXplm :=
  { datarefs := [(paths.COM1_ACTIVE_HZ, DataRefValue.Int 118025000),
      (paths.COM1_STANDBY_HZ, DataRefValue.Int 121500000)],
    handles := [paths.COM1_ACTIVE_HZ, paths.COM1_STANDBY_HZ],
    set_float_log := [], set_int_log := [], log_messages := [] }

def stC5 : EfbPlugin :=
  { EfbPlugin.new 0 mockC5 with handles := { com1_active_hz := some 0, com1_standby_hz := some 1 } }

/-- Witness for C5: swapping COM1 exchanges 118025000 and 121500000, and
COM2 stays a no-op. -/
theorem c5_swap_freq_com1_nav1_com2_witness :
    stC5.handles.com1_active_hz = some 0 ∧
    stC5.handles.com1_standby_hz = some 1 ∧
    stC5.swap_freq env0 ("COM1") =
      { stC5 with xplm := (stC5.xplm.set_int 0
          (stC5.xplm.get_int env0 1)).set_int 1 (stC5.xplm.get_int env0 0) } ∧
    (stC5.swap_freq env0 ("COM1")).xplm.get_int env0 0 = 121500000 ∧
    (stC5.swap_freq env0 ("COM1")).xplm.get_int env0 1 = 118025000 ∧
    stC5.swap_freq env0 ("COM2") = stC5 := by
  refine ⟨rfl, rfl, ?_, by decide, by decide, ?_⟩
  · exact (c5_swap_freq_com1_nav1_com2 env0 stC5).1 0 1 rfl rfl
  · exact (c5_swap_freq_com1_nav1_com2 env0 stC5).2.2.1



/-! ## Sequence-counter lemmas -/

theorem swap_freq_sequence (env : Env) (radio : String) (st : EfbPlugin) :
    (st.swap_freq env radio).sequence = st.sequence := by
  unfold EfbPlugin.swap_freq
  dsimp only
  repeat' split
  all_goals rfl

theorem handle_command_sequence (env : Env) (st : EfbPlugin)
    (payload : List Nat) :
    (st.handle_command env payload).sequence = st.sequence := by
  unfold EfbPlugin.handle_command
  cases hp : env.parseCommand payload with
  | none => rfl
  | some cmd =>
      cases cmd with
      | SetDataref path value =>
          dsimp only
          cases hf : st.xplm.find_dataref path with
          | mk fst snd => cases fst <;> rfl
      | SwapFreq radio =>
          dsimp only
          exact swap_freq_sequence env radio st

theorem handle_internal_msg_sequence (env : Env) (now : Nat)
    (st : EfbPlugin) (msg : InternalMsg) :
    (st.handle_internal_msg env now msg).sequence = st.sequence := by
  cases msg with
  | Ack a => rfl
  | Command p => exact handle_command_sequence env st p
  | Reload => simp [EfbPlugin.handle_internal_msg, EfbPlugin.find_handles]

theorem drain_messages_sequence (env : Env) (now : Nat) (st : EfbPlugin) :
    (st.drain_messages env now).sequence = st.sequence := by
  unfold EfbPlugin.drain_messages
  cases hc : st.cmd_rx with
  | none => rfl
  | some msgs =>
      have gen : ∀ (l : List InternalMsg) (s0 : EfbPlugin),
          (l.foldl (fun acc msg => acc.handle_internal_msg env now msg)
            s0).sequence = s0.sequence := by
        intro l
        induction l with
        | nil => intro s0; rfl
        | cons m t ih =>
            intro s0
            rw [List.foldl_cons, ih, handle_internal_msg_sequence]
      exact gen msgs _

/-- When the watchdog window is open and a peer is known, a tick sends
exactly one frame stamped with the pre-increment sequence value and advances
the counter by one (wrapping in `U32`). -/
theorem flight_loop_tick_active (env : Env) (now : Nat) (st : EfbPlugin)
    (a : Addr)
    (h1 : (st.drain_messages env now).is_streaming_active now = true)
    (h2 : (st.drain_messages env now).tablet_addr = some a) :
    st.flight_loop_tick env now =
      (1 / (st.streaming_rate_hz : Rat),
        { st.drain_messages env now with
            sequence := (st.drain_messages env now).sequence + 1 },
        [(a, encode_sim_data (st.drain_messages env now).sequence
          ((st.drain_messages env now).read_snapshot env))]) := by
  unfold EfbPlugin.flight_loop_tick
  dsimp only
  simp only [h1, h2, Bool.not_true, if_false]
  rfl

/-- C6: the counter starts at 0 at construction, and whenever two successive
ticks both stream (watchdog open, peer known), each sends exactly one frame
stamped with the current sequence value, and the second stamp is exactly one
more than the first modulo `2 ^ 32`. -/
theorem c6_sequence_increments_by_one :
    (∀ (now : Nat) (x : MockXplm), (EfbPlugin.new now x).sequence = 0) ∧
    (∀ (env : Env) (t1 t2 : Nat) (st : EfbPlugin) (a1 a2 : Addr),
      (st.drain_messages env t1).is_streaming_active t1 = true →
      (st.drain_messages env t1).tablet_addr = some a1 →
      (((st.flight_loop_tick env t1).2.1).drain_messages env
        t2).is_streaming_active t2 = true →
      (((st.flight_loop_tick env t1).2.1).drain_messages env t2).tablet_addr =
        some a2 →
      (st.flight_loop_tick env t1).2.2 =
        [(a1, encode_sim_data (st.drain_messages env t1).sequence
          ((st.drain_messages env t1).read_snapshot env))] ∧
      ((st.flight_loop_tick env t1).2.1.flight_loop_tick env t2).2.2 =
        [(a2, encode_sim_data
          (((st.flight_loop_tick env t1).2.1).drain_messages env t2).sequence
          ((((st.flight_loop_tick env t1).2.1).drain_messages env
            t2).read_snapshot env))] ∧
      ((((st.flight_loop_tick env t1).2.1).drain_messages env
          t2).sequence).val =
        (((st.drain_messages env t1).sequence).val + 1) % 2 ^ 32) := by
  constructor
  · intro now x
    rfl
  · intro env t1 t2 st a1 a2 h1 h2 h3 h4
    have ht1 := flight_loop_tick_active env t1 st a1 h1 h2
    have ht2 := flight_loop_tick_active env t2 ((st.flight_loop_tick env t1).2.1)
      a2 h3 h4
    refine ⟨by rw [ht1], by rw [ht2], ?_⟩
    have hdrain := drain_messages_sequence env t2 ((st.flight_loop_tick env t1).2.1)
    rw [hdrain, ht1]
    show (((st.drain_messages env t1).sequence + 1 : U32)).val = _
    rw [Fin.add_def]
    norm_num

/-- A concrete streaming state for the C6 witness. -/
def stC6 : EfbPlugin :=
  { EfbPlugin.new 0 {} with tablet_addr := some addr0 }

/-- Witness for C6: two concrete successive ticks. -/
theorem c6_sequence_increments_by_one_witness :
    (stC6.drain_messages env0 0).is_streaming_active 0 = true ∧
    (stC6.drain_messages env0 0).tablet_addr = some addr0 ∧
    (((stC6.flight_loop_tick env0 0).2.1).drain_messages env0
      1).is_streaming_active 1 = true ∧
    (((stC6.flight_loop_tick env0 0).2.1).drain_messages env0 1).tablet_addr =
      some addr0 ∧
    ((((stC6.flight_loop_tick env0 0).2.1).drain_messages env0
        1).sequence).val =
      (((stC6.drain_messages env0 0).sequence).val + 1) % 2 ^ 32 :=
  ⟨by decide, by decide, by decide, by decide,
    (c6_sequence_increments_by_one.2 env0 0 1 stC6 addr0 addr0 (by decide)
      (by decide) (by decide) (by decide)).2.2⟩


end Efb
